import Mathlib

/-!
Verification of the transform stage of the ecommerce-reporting-etl pipeline.

A pandas DataFrame is embedded as a `Frame`: an explicit column list plus a
list of rows, each row an association list from column name to `Cell`.
Cells are typeless values (object-dtype view): null, integer, rational
(floats are modelled as rationals), string, boolean, or timestamp.
-/

/-- Lowercasing of a string (Python str.lower), written over the character
list so that it evaluates by kernel reduction. -/
def lowerStr (s : String) : String :=
  String.mk (s.data.map Char.toLower)

/-- A calendar date (the date part of a pandas timestamp; time of day is not
needed by any transform operation). -/
structure Date where
  y : Int
  m : Nat
  d : Nat
deriving DecidableEq, Repr

/-- One value of a tabular dataset.  Floats are modelled as rationals; the
pandas missing markers (NaN / NaT / NA) are all modelled as `null`. -/
inductive Cell where
  | null
  | int (i : Int)
  | rat (q : ℚ)
  | str (s : String)
  | bool (b : Bool)
  | date (t : Date)
deriving DecidableEq, Repr

namespace Cell

/-- Is this cell a missing value (pandas isna)? -/
def isNull : Cell → Bool
  | .null => true
  | _ => false

/-- Numeric view of a cell, as pandas arithmetic sees it (booleans count as
1/0; strings, dates and nulls are not numeric). -/
def toRat? : Cell → Option ℚ
  | .int i => some (i : ℚ)
  | .rat q => some q
  | .bool b => some (if b then 1 else 0)
  | _ => none

/-- Key equality used by pandas merge: null keys never match; numeric keys
compare by value (1 matches 1.0); other keys compare structurally. -/
def keyEq (a b : Cell) : Bool :=
  match a.toRat?, b.toRat? with
  | some x, some y => x == y
  | _, _ => !a.isNull && !b.isNull && a == b

/-- Value equality used by pandas duplicated / drop_duplicates and
value-based replace: like `keyEq` but null equals null. -/
def eqv (a b : Cell) : Bool :=
  match a.toRat?, b.toRat? with
  | some x, some y => x == y
  | _, _ => a == b

/-- Series.fillna(0). -/
def fillZero : Cell → Cell
  | .null => .rat 0
  | c => c

/-- Element of Series.str.lower(): strings are lowercased, anything else
(including null) becomes missing. -/
def strLower : Cell → Option String
  | .str s => some (lowerStr s)
  | _ => none

/-- pd.to_numeric(-, errors="coerce") on one element: numeric values kept,
booleans become 1/0, integer-looking strings parse, anything unparseable
becomes null.  (Decimal-string parsing and datetime reinterpretation are
not modelled; no transform feeds such values to to_numeric.) -/
def toNumeric : Cell → Cell
  | .int i => .int i
  | .rat q => .rat q
  | .bool b => .int (if b then 1 else 0)
  | .str s => match s.toInt? with
      | some i => .int i
      | none => .null
  | _ => .null

/-- Split a character list on the dash separator (String.splitOn "-",
written over the character list so that it evaluates by kernel
reduction). -/
def splitDash : List Char → List (List Char)
  | [] => [[]]
  | c :: rest =>
      let r := splitDash rest
      if c = '-' then [] :: r
      else (c :: r.headD []) :: r.tail

/-- Parse a non-empty all-digit character list as a number
(String.toNat?). -/
def digitsToNat? (cs : List Char) : Option Nat :=
  if cs.isEmpty then none
  else if cs.all (fun c => c.isDigit) then
    some (cs.foldl (fun n c => 10 * n + (c.toNat - 48)) 0)
  else none

/-- Parse an ISO "YYYY-MM-DD" date string; other formats coerce to null.
(pandas accepts more formats; only ISO dates appear in this pipeline.) -/
def parseDate (s : String) : Option Date :=
  match (splitDash s.data).map digitsToNat? with
  | [some y, some m, some d] =>
      if 1 ≤ m ∧ m ≤ 12 ∧ 1 ≤ d ∧ d ≤ 31 then some ⟨(y : Int), m, d⟩ else none
  | _ => none

/-- pd.to_datetime(-, errors="coerce") on one element. -/
def toDatetime : Cell → Cell
  | .date t => .date t
  | .str s => match parseDate s with
      | some t => .date t
      | none => .null
  | _ => .null

/-- Number of days from 1970-01-01 (Howard Hinnant civil-days algorithm),
used to identify calendar week periods. -/
def daysFromCivil (t : Date) : Int :=
  let y : Int := if t.m ≤ 2 then t.y - 1 else t.y
  let era : Int := (if 0 ≤ y then y else y - 399) / 400
  let yoe : Int := y - era * 400
  let mp : Int := ((t.m : Int) + 9) % 12
  let doy : Int := (153 * mp + 2) / 5 + (t.d : Int) - 1
  let doe : Int := yoe * 365 + yoe / 4 - yoe / 100 + doy
  era * 146097 + doe - 719468

/-- Series.dt.to_period("M"): the month period, identified by its month
index (12 * year + month - 1). -/
def toPeriodM : Cell → Cell
  | .date t => .int (12 * t.y + (t.m : Int) - 1)
  | _ => .null

/-- Series.dt.to_period("W"): the Monday-to-Sunday week period, identified
by its index among such weeks. -/
def toPeriodW : Cell → Cell
  | .date t => .int ((daysFromCivil t + 3).fdiv 7)
  | _ => .null

end Cell

/-- One row of a frame: bindings from column name to value. -/
abbrev Row := List (String × Cell)

namespace Row

/-- The value of a column in this row (missing binding reads as null). -/
def getCell (r : Row) (c : String) : Cell :=
  (r.lookup c).getD Cell.null

/-- Column assignment on one row: replace the binding if present, else
append it. -/
def setCell (r : Row) (c : String) (v : Cell) : Row :=
  if (r.lookup c).isSome then
    r.map (fun p => if p.1 = c then (c, v) else p)
  else
    r ++ [(c, v)]

end Row

/-- A tabular dataset: explicit column list plus rows. -/
structure Frame where
  cols : List String
  rows : List Row
deriving DecidableEq, Repr

namespace Frame

/-- Restrict one row to the given columns, in their order. -/
def selectRow (cs : List String) (r : Row) : Row :=
  cs.map (fun c => (c, r.getCell c))

/-- df[cs]: column selection; a missing column is a Python KeyError (the
error value is produced by the caller). -/
def selectOk (f : Frame) (cs : List String) : Bool :=
  cs.all (fun c => f.cols.contains c)

/-- The selected sub-frame (only meaningful when `selectOk`). -/
def select (f : Frame) (cs : List String) : Frame :=
  { cols := cs, rows := f.rows.map (selectRow cs) }

/-- df[c] = f(row) for every row: compute a column from each whole row. -/
def setColByRow (f : Frame) (c : String) (g : Row → Cell) : Frame :=
  { cols := if f.cols.contains c then f.cols else f.cols ++ [c],
    rows := f.rows.map (fun r => r.setCell c (g r)) }

/-- df[c] = df[c].map(g): elementwise transformation of one column. -/
def mapCol (f : Frame) (c : String) (g : Cell → Cell) : Frame :=
  f.setColByRow c (fun r => g (r.getCell c))

/-- Does any row hold a null in column `c` (pandas df[c].isnull().any())? -/
def colHasNull (f : Frame) (c : String) : Bool :=
  f.rows.any (fun r => (r.getCell c).isNull)

/-- All values of column `c`, in row order. -/
def colCells (f : Frame) (c : String) : List Cell :=
  f.rows.map (fun r => r.getCell c)

end Frame

/-- df.merge(right, on=key, how="left"): every left row is kept; it is
paired with each matching right row (key match per `Cell.keyEq`), or with
nulls in every right column when nothing matches. -/
def leftMerge (l r : Frame) (key : String) : Frame :=
  let rcols := r.cols.filter (fun c => c ≠ key)
  { cols := l.cols ++ rcols,
    rows := l.rows.flatMap (fun a =>
      let ms := r.rows.filter
        (fun b => Cell.keyEq (a.getCell key) (b.getCell key))
      if ms.isEmpty then [a ++ rcols.map (fun c => (c, Cell.null))]
      else ms.map (fun b => a ++ rcols.map (fun c => (c, b.getCell c)))) }

/-- Key equality of two rows on a list of subset columns, as pandas
duplicated / drop_duplicates compares them (value equality, null = null). -/
def rowKeyEqv (columns : List String) (r s : Row) : Bool :=
  columns.all (fun c => Cell.eqv (r.getCell c) (s.getCell c))

/-- drop_duplicates(subset=columns, keep="last"): keep a row exactly when
no later row bears the same key value(s). -/
def dropDupLast (columns : List String) : List Row → List Row
  | [] => []
  | r :: rest =>
      if rest.any (fun s => rowKeyEqv columns s r) then dropDupLast columns rest
      else r :: dropDupLast columns rest

/-- Are the key cells of these rows pairwise non-matching under `eq`? -/
def pairwiseNoMatch (eq : Cell → Cell → Bool) (key : String) : List Row → Bool
  | [] => true
  | r :: rest =>
      rest.all (fun s => !eq (r.getCell key) (s.getCell key)) &&
      pairwiseNoMatch eq key rest

/-- Distinct-key scan: keep each cell whose value was not seen before
(`seen` accumulates the kept cells). -/
def dedupKeysAux : List Cell → List Cell → List Cell
  | [], _ => []
  | c :: rest, seen =>
      if seen.any (fun d => Cell.eqv d c) then dedupKeysAux rest seen
      else c :: dedupKeysAux rest (c :: seen)

/-- The distinct key cells of a list, first occurrences first, matching by
pandas value equality (used for groupby, whose groups ignore null keys). -/
def dedupKeys (l : List Cell) : List Cell :=
  dedupKeysAux l []

/-- Sum of the numeric values of a list of cells, skipping non-numeric
entries (pandas sum with skipna; an all-null group sums to 0). -/
def sumQ (cs : List Cell) : ℚ :=
  (cs.filterMap Cell.toRat?).sum

/-- Mean of the numeric values of a list of cells (pandas mean with
skipna); none models NaN when there is nothing to average. -/
def meanQ (cs : List Cell) : Option ℚ :=
  let xs := cs.filterMap Cell.toRat?
  if xs.length = 0 then none else some (xs.sum / xs.length)

/-- Mean of a boolean list (pandas mean of a comparison result); none
models NaN on an empty series. -/
def meanB (bs : List Bool) : Option ℚ :=
  if bs.length = 0 then none
  else some (((bs.count true : ℚ)) / (bs.length : ℚ))

/-!
## Errors and the SchemaValidator

`src/utils/validators.py` is not under src/ (only its callers are), so the
validator operations are modelled from the spec (section 4.1).  Errors are
values: a failed check is an `Except.error`.
-/

/-- The errors the transform stage can surface.  The first four are the
SchemaValidationError family raised by the SchemaValidator; `keyError`
models a Python KeyError from a plain missing-column access. -/
inductive PdError where
  | missingColumns (cols : List String)
  | nullConstraint (cols : List String)
  | rangeError (col : String) (violations : Nat)
  | duplicateKey (duplicates : Nat)
  | keyError (col : String)
deriving DecidableEq, Repr

/-- Does this error belong to the SchemaValidationError family raised by
validators (as opposed to a plain Python KeyError)? -/
def PdError.isSchemaValidationError : PdError → Bool
  | .missingColumns _ => true
  | .nullConstraint _ => true
  | .rangeError _ _ => true
  | .duplicateKey _ => true
  | .keyError _ => false

namespace SchemaValidator

/-- Modelled from the spec: SchemaValidator.validate_required_columns fails
with MissingRequiredColumnsError listing every missing name if any declared
column is absent. -/
def validate_required_columns (f : Frame) (names : List String) :
    Except PdError Unit :=
  let missing := names.filter (fun c => !f.cols.contains c)
  if missing.isEmpty then .ok () else .error (.missingColumns missing)

/-- Modelled from the spec: SchemaValidator.validate_no_nulls fails with
NullConstraintError naming each offending column; when the column list is
omitted it checks all columns of the table. -/
def validate_no_nulls (f : Frame) (columns : Option (List String)) :
    Except PdError Unit :=
  let target := columns.getD f.cols
  let offending := target.filter (fun c => f.colHasNull c)
  if offending.isEmpty then .ok () else .error (.nullConstraint offending)

/-- Modelled from the spec: SchemaValidator.validate_numeric_range fails
with RangeValidationError reporting the count of out-of-range rows.  Null
and non-numeric entries pass (pandas comparisons with NaN are False). -/
def validate_numeric_range (f : Frame) (column : String)
    (min_value max_value : Option ℚ) : Except PdError Unit :=
  let bad := (f.colCells column).filter (fun c =>
    match c.toRat? with
    | some x =>
        (match min_value with | some lo => x < lo | none => false) ||
        (match max_value with | some hi => hi < x | none => false)
    | none => false)
  if bad.isEmpty then .ok () else .error (.rangeError column bad.length)

/-- Modelled from the spec: SchemaValidator.validate_unique_values fails
with DuplicateKeyError reporting the count of duplicate key values (rows
beyond the last occurrence of each key value). -/
def validate_unique_values (f : Frame) (columns : List String) :
    Except PdError Unit :=
  let dups := f.rows.length - (dropDupLast columns f.rows).length
  if dups = 0 then .ok () else .error (.duplicateKey dups)

end SchemaValidator

/-- df[c] = df[c].map(g) with the pandas access check: reading a missing
column is a Python KeyError. -/
def Frame.mapColE (f : Frame) (c : String) (g : Cell → Cell) :
    Except PdError Frame :=
  if f.cols.contains c then .ok (f.mapCol c g) else .error (.keyError c)

/-- Declared policies for filling missing values (spec section 4.2). -/
inductive NullStrategy where
  | FILL_ZERO
deriving DecidableEq, Repr

/-- Modelled from the spec: the abstract DataCleaner's fill helper
(`_fill_column` in `base_cleaner.py`, not under src/) applies a declared
NullStrategy to one column; FILL_ZERO fills nulls with zero. -/
def fill_column (f : Frame) (c : String) : NullStrategy → Except PdError Frame
  | .FILL_ZERO => f.mapColE c Cell.fillZero

/-!
## InventoryCleaner (src/transform/cleaners/inventory_cleaner.py)
-/

namespace InventoryCleaner

def REQUIRED_COLUMNS : List String :=
  ["inventory_id", "product_id", "warehouse_id", "quantity",
   "min_stock_level", "max_stock_level"]

/-- InventoryCleaner.handle_nulls: validate that the inventory, product and
warehouse keys are never null, then fill the stock quantities with zero. -/
def handle_nulls (df : Frame) : Except PdError Frame := do
  SchemaValidator.validate_no_nulls df
    (some ["inventory_id", "product_id", "warehouse_id"])
  let df ← fill_column df "quantity" .FILL_ZERO
  let df ← fill_column df "min_stock_level" .FILL_ZERO
  fill_column df "max_stock_level" .FILL_ZERO

/-- InventoryCleaner.handle_duplicates: drop duplicate rows by
inventory_id, keeping the last occurrence. -/
def handle_duplicates (df : Frame) : Frame :=
  { df with rows := dropDupLast ["inventory_id"] df.rows }

/-- InventoryCleaner.convert_types: coerce the stock metrics to numeric and
the restock date to datetime (coerce-or-null). -/
def convert_types (df : Frame) : Except PdError Frame := do
  let df ← df.mapColE "quantity" Cell.toNumeric
  let df ← df.mapColE "min_stock_level" Cell.toNumeric
  let df ← df.mapColE "max_stock_level" Cell.toNumeric
  df.mapColE "last_restock_date" Cell.toDatetime

/-- InventoryCleaner.validate_cleaned_data: required columns, non-negative
stock ranges, unique inventory_id. -/
def validate_cleaned_data (df : Frame) : Except PdError Frame := do
  SchemaValidator.validate_required_columns df REQUIRED_COLUMNS
  SchemaValidator.validate_numeric_range df "quantity" (some 0) none
  SchemaValidator.validate_numeric_range df "min_stock_level" (some 0) none
  SchemaValidator.validate_numeric_range df "max_stock_level" (some 0) none
  SchemaValidator.validate_unique_values df ["inventory_id"]
  pure df

/-- Modelled from the spec: the abstract DataCleaner.clean
(`base_cleaner.py`, not under src/) runs the four phases
handle_nulls, handle_duplicates, convert_types, validate_cleaned_data in
this exact order. -/
def clean (df : Frame) : Except PdError Frame := do
  let df ← handle_nulls df
  let df := handle_duplicates df
  let df ← convert_types df
  validate_cleaned_data df

end InventoryCleaner

/-!
## ReviewsCleaner (src/transform/cleaners/reviews_cleaner.py)
-/

namespace ReviewsCleaner

def REQUIRED_COLUMNS : List String :=
  ["review_id", "product_id", "customer_id", "rating", "created_at"]

/-- ReviewsCleaner.handle_nulls: validate that the essential keys, rating
and creation date are never null, then fill helpful_votes with zero. -/
def handle_nulls (df : Frame) : Except PdError Frame := do
  SchemaValidator.validate_no_nulls df
    (some ["review_id", "product_id", "customer_id", "rating", "created_at"])
  fill_column df "helpful_votes" .FILL_ZERO

/-- ReviewsCleaner.handle_duplicates: drop duplicate rows by review_id,
keeping the last occurrence. -/
def handle_duplicates (df : Frame) : Frame :=
  { df with rows := dropDupLast ["review_id"] df.rows }

/-- ReviewsCleaner.convert_types: coerce rating and helpful_votes to
numeric and created_at to datetime, each column only when present. -/
def convert_types (df : Frame) : Frame :=
  let df := if df.cols.contains "rating" then df.mapCol "rating" Cell.toNumeric else df
  let df := if df.cols.contains "helpful_votes" then df.mapCol "helpful_votes" Cell.toNumeric else df
  if df.cols.contains "created_at" then df.mapCol "created_at" Cell.toDatetime else df

/-- ReviewsCleaner.validate_cleaned_data: required columns, rating in
1..5, non-negative helpful_votes, unique review_id. -/
def validate_cleaned_data (df : Frame) : Except PdError Frame := do
  SchemaValidator.validate_required_columns df REQUIRED_COLUMNS
  SchemaValidator.validate_numeric_range df "rating" (some 1) (some 5)
  SchemaValidator.validate_numeric_range df "helpful_votes" (some 0) none
  SchemaValidator.validate_unique_values df ["review_id"]
  pure df

/-- Modelled from the spec: the abstract DataCleaner.clean
(`base_cleaner.py`, not under src/) runs the four phases in order. -/
def clean (df : Frame) : Except PdError Frame := do
  let df ← handle_nulls df
  let df := handle_duplicates df
  let df := convert_types df
  validate_cleaned_data df

end ReviewsCleaner

/-!
## OrdersCleaner

`src/transform/cleaners/orders_cleaner.py` is not under src/ (only its
caller OrdersEnricher is), so the whole class is modelled from the spec:
four phases over the Order entity of section 3 (key order_id; promotion_id
is the only nullable business attribute; numeric columns total_amount,
shipping_cost, discount_percent; date column order_date).
-/

namespace OrdersCleaner

def REQUIRED_COLUMNS : List String :=
  ["order_id", "customer_id", "total_amount", "shipping_cost",
   "discount_percent", "status", "order_date"]

/-- Modelled from the spec: OrdersCleaner.handle_nulls validates the
null-intolerant Order columns and fills the null-tolerant numeric columns
shipping_cost and discount_percent with zero. -/
def handle_nulls (df : Frame) : Except PdError Frame := do
  SchemaValidator.validate_no_nulls df
    (some ["order_id", "customer_id", "total_amount", "status", "order_date"])
  let df ← fill_column df "shipping_cost" .FILL_ZERO
  fill_column df "discount_percent" .FILL_ZERO

/-- Modelled from the spec: OrdersCleaner.handle_duplicates drops
duplicate rows by order_id keeping the last occurrence. -/
def handle_duplicates (df : Frame) : Frame :=
  { df with rows := dropDupLast ["order_id"] df.rows }

/-- Modelled from the spec: OrdersCleaner.convert_types coerces the
numeric Order columns to numeric and order_date to datetime. -/
def convert_types (df : Frame) : Except PdError Frame := do
  let df ← df.mapColE "total_amount" Cell.toNumeric
  let df ← df.mapColE "shipping_cost" Cell.toNumeric
  let df ← df.mapColE "discount_percent" Cell.toNumeric
  df.mapColE "order_date" Cell.toDatetime

/-- Modelled from the spec: OrdersCleaner.validate_cleaned_data re-checks
required columns and the unique order_id key. -/
def validate_cleaned_data (df : Frame) : Except PdError Frame := do
  SchemaValidator.validate_required_columns df REQUIRED_COLUMNS
  SchemaValidator.validate_unique_values df ["order_id"]
  pure df

/-- Modelled from the spec: the abstract DataCleaner.clean runs the four
phases in order. -/
def clean (df : Frame) : Except PdError Frame := do
  let df ← handle_nulls df
  let df := handle_duplicates df
  let df ← convert_types df
  validate_cleaned_data df

end OrdersCleaner

/-- df[cs] with the pandas access check: the first missing selected column
is a Python KeyError. -/
def Frame.selectE (f : Frame) (cs : List String) : Except PdError Frame :=
  match cs.find? (fun c => !f.cols.contains c) with
  | some c => .error (.keyError c)
  | none => .ok (f.select cs)

/-- df[dst] = g(df[src]) with the pandas access check on the source
column. -/
def Frame.setColFromE (f : Frame) (dst src : String) (g : Cell → Cell) :
    Except PdError Frame :=
  if f.cols.contains src then .ok (f.setColByRow dst (fun r => g (r.getCell src)))
  else .error (.keyError src)

namespace Cell

/-- Series.replace(0, pd.NA) on one element (value equality, so 0 and 0.0
are both replaced). -/
def replaceZeroNA (c : Cell) : Cell :=
  if c.toRat? == some 0 then .null else c

/-- Elementwise division of two numeric series: missing on either side
propagates to missing. -/
def divCell (a b : Cell) : Cell :=
  match a.toRat?, b.toRat? with
  | some x, some y => .rat (x / y)
  | _, _ => .null

/-- Element of df["comment"].fillna("").str.len(): null counts as the
empty string, strings by character count, non-strings are missing. -/
def commentLength : Cell → Cell
  | .null => .int 0
  | .str s => .int (s.length : Int)
  | _ => .null

end Cell

/-!
## OrdersEnricher (src/transform/enrichers/orders_enricher.py)
-/

namespace OrdersEnricher

/-- OrdersEnricher._validate_customers: required columns, null checks on
customer_id and segment, then coerce registration_date to datetime. -/
def validate_customers (customers_df : Frame) : Except PdError Frame := do
  SchemaValidator.validate_required_columns customers_df
    ["customer_id", "segment", "registration_date"]
  SchemaValidator.validate_no_nulls customers_df (some ["customer_id", "segment"])
  customers_df.mapColE "registration_date" Cell.toDatetime

/-- OrdersEnricher._validate_promotions: required columns, null checks on
promotion_id, promotion_type and is_active, non-negative discount_value,
then coerce start_date and end_date to datetime. -/
def validate_promotions (promotions_df : Frame) : Except PdError Frame := do
  SchemaValidator.validate_required_columns promotions_df
    ["promotion_id", "promotion_type", "discount_value", "is_active"]
  SchemaValidator.validate_no_nulls promotions_df
    (some ["promotion_id", "promotion_type", "is_active"])
  SchemaValidator.validate_numeric_range promotions_df "discount_value" (some 0) none
  let promotions_df ← promotions_df.mapColE "start_date" Cell.toDatetime
  promotions_df.mapColE "end_date" Cell.toDatetime

/-- OrdersEnricher._validate_order_items: required columns, null checks on
order_id and product_id, then coerce the amounts to numeric. -/
def validate_order_items (order_items_df : Frame) : Except PdError Frame := do
  SchemaValidator.validate_required_columns order_items_df
    ["order_id", "product_id", "quantity", "unit_price", "subtotal"]
  SchemaValidator.validate_no_nulls order_items_df (some ["order_id", "product_id"])
  let df ← order_items_df.mapColE "quantity" Cell.toNumeric
  let df ← df.mapColE "unit_price" Cell.toNumeric
  df.mapColE "subtotal" Cell.toNumeric

/-- OrdersEnricher._join_customer_data: left-join the selected customer
columns onto orders by customer_id. -/
def join_customer_data (orders_df customers_df : Frame) :
    Except PdError Frame := do
  let sel ← customers_df.selectE
    ["customer_id", "segment", "registration_date", "city", "country", "email"]
  pure (leftMerge orders_df sel "customer_id")

/-- OrdersEnricher._join_promotion_data: left-join the selected promotion
columns onto orders by promotion_id. -/
def join_promotion_data (orders_df promotions_df : Frame) :
    Except PdError Frame := do
  let sel ← promotions_df.selectE
    ["promotion_id", "promotion_type", "discount_value", "start_date",
     "end_date", "is_active"]
  pure (leftMerge orders_df sel "promotion_id")

/-- order_items.groupby("order_id").agg(quantity sum).reset_index()
.rename(quantity to items_count): one row per distinct non-null order_id,
with the skip-null sum of that group's quantities. -/
def groupItemsCount (order_items_df : Frame) : Frame :=
  let ks := dedupKeys ((order_items_df.colCells "order_id").filter
    (fun c => !c.isNull))
  { cols := ["order_id", "items_count"],
    rows := ks.map (fun k =>
      [("order_id", k),
       ("items_count", Cell.rat (sumQ ((order_items_df.rows.filter
         (fun r => Cell.eqv (r.getCell "order_id") k)).map
         (fun r => r.getCell "quantity"))))]) }

/-- OrdersEnricher._calculate_order_products_count_and_average_price:
merge the per-order item counts into orders, then derive avg_item_price as
total_amount divided by items_count with 0 replaced by NA before the
division, and the missing results filled with 0. -/
def calculate_order_products_count_and_average_price
    (orders_df order_items_df : Frame) : Frame :=
  let grouped := groupItemsCount order_items_df
  let enriched := leftMerge orders_df grouped "order_id"
  let enriched := enriched.setColByRow "avg_item_price" (fun r =>
    Cell.divCell (r.getCell "total_amount") ((r.getCell "items_count").replaceZeroNA))
  enriched.mapCol "avg_item_price" Cell.fillZero

/-- OrdersEnricher._add_derived_columns: calendar periods of order_date and
the used_promotion / is_free_shipping / is_high_discount flags. -/
def add_derived_columns (df : Frame) : Except PdError Frame := do
  let df ← df.setColFromE "order_month" "order_date" Cell.toPeriodM
  let df ← df.setColFromE "order_week" "order_date" Cell.toPeriodW
  let df ← df.setColFromE "used_promotion" "promotion_id"
    (fun c => .bool (!c.isNull))
  let df ← df.setColFromE "is_free_shipping" "shipping_cost"
    (fun c => .bool (c.fillZero.toRat? == some 0))
  df.setColFromE "is_high_discount" "discount_percent"
    (fun c => .bool (match c.fillZero.toRat? with
      | some x => decide (20 ≤ x)
      | none => false))

/-- OrdersEnricher.enrich: clean the orders, validate the catalogs, join
customers and promotions, merge the item aggregates, derive the business
columns. -/
def enrich (orders_df customers_df promotions_df order_items_df : Frame) :
    Except PdError Frame := do
  let orders_df ← OrdersCleaner.clean orders_df
  let customers_df ← validate_customers customers_df
  let order_items_df ← validate_order_items order_items_df
  let promotions_df ← validate_promotions promotions_df
  let enriched_df ← join_customer_data orders_df customers_df
  let enriched_df ← join_promotion_data enriched_df promotions_df
  let enriched_df := calculate_order_products_count_and_average_price
    enriched_df order_items_df
  add_derived_columns enriched_df

end OrdersEnricher

/-!
## ReviewsEnricher (src/transform/enrichers/reviews_enricher.py)
-/

namespace ReviewsEnricher

/-- ReviewsEnricher._join_products: validate the products catalog
(required columns, then a null check over ALL its columns) and left-join
the selected product columns onto reviews by product_id. -/
def join_products (reviews_df products_df : Frame) : Except PdError Frame := do
  let cols := ["product_id", "product_name", "category_id", "brand_id"]
  SchemaValidator.validate_required_columns products_df cols
  SchemaValidator.validate_no_nulls products_df none
  let sel ← products_df.selectE cols
  pure (leftMerge reviews_df sel "product_id")

/-- ReviewsEnricher._join_customers: validate that customer_id exists and
left-join the selected customer columns onto reviews by customer_id. -/
def join_customers (reviews_df customers_df : Frame) : Except PdError Frame := do
  SchemaValidator.validate_required_columns customers_df ["customer_id"]
  let sel ← customers_df.selectE ["customer_id", "segment", "city", "country"]
  pure (leftMerge reviews_df sel "customer_id")

/-- ReviewsEnricher._add_derived_columns: review_month, comment_length and
the is_positive / is_negative sentiment flags. -/
def add_derived_columns (df : Frame) : Except PdError Frame := do
  let df ← df.setColFromE "review_month" "created_at" Cell.toPeriodM
  let df ← df.setColFromE "comment_length" "comment" Cell.commentLength
  let df ← df.setColFromE "is_positive" "rating"
    (fun c => .bool (match c.toRat? with
      | some x => decide (4 ≤ x)
      | none => false))
  df.setColFromE "is_negative" "rating"
    (fun c => .bool (match c.toRat? with
      | some x => decide (x ≤ 2)
      | none => false))

/-- ReviewsEnricher.enrich: clean the reviews, join products and
customers, derive the business columns. -/
def enrich (reviews_df products_df customers_df : Frame) :
    Except PdError Frame := do
  let reviews_df ← ReviewsCleaner.clean reviews_df
  let enriched_df ← join_products reviews_df products_df
  let enriched_df ← join_customers enriched_df customers_df
  add_derived_columns enriched_df

end ReviewsEnricher

/-!
## OrderLifecycleAggregator (src/transform/aggregators/order_lifecycle.py)

Aggregators access columns directly (no SchemaValidator), so a missing
column is a Python KeyError.
-/

namespace OrderLifecycleAggregator

/-- OrderLifecycleAggregator.cancellation_rate: the mean of the boolean
series (status lowercased == "cancelled"); the mean of an empty series is
NaN (modelled none). -/
def cancellation_rate (enriched_orders_df : Frame) :
    Except PdError (Option ℚ) :=
  if enriched_orders_df.cols.contains "status" then
    .ok (meanB ((enriched_orders_df.colCells "status").map
      (fun c => c.strLower == some "cancelled")))
  else .error (.keyError "status")

/-- OrderLifecycleAggregator.delivery_rate: the mean of the boolean series
(status lowercased == "delivered"). -/
def delivery_rate (enriched_orders_df : Frame) :
    Except PdError (Option ℚ) :=
  if enriched_orders_df.cols.contains "status" then
    .ok (meanB ((enriched_orders_df.colCells "status").map
      (fun c => c.strLower == some "delivered")))
  else .error (.keyError "status")

/-- The `filtered` frame of in_progress_backlog: rows whose lowercased
status is in the set of pending, processing and shipped (null or
non-string status is never in the set). -/
def inProgressFiltered (enriched_orders_df : Frame) : Frame :=
  { enriched_orders_df with
    rows := enriched_orders_df.rows.filter (fun r =>
      match (r.getCell "status").strLower with
      | some s => ["pending", "processing", "shipped"].contains s
      | none => false) }

/-- One row of the backlog result: a month period with its order count and
total value. -/
structure BacklogRow where
  order_month : Cell
  backlog_orders : Nat
  backlog_value : ℚ
deriving DecidableEq, Repr

/-- Ascending comparison of two period cells for sort_values (missing
sorts last; never hit here since groupby drops null keys). -/
def cellPeriodLE (a b : Cell) : Bool :=
  match a.toRat?, b.toRat? with
  | some x, some y => decide (x ≤ y)
  | some _, none => true
  | none, _ => false

/-- OrderLifecycleAggregator.in_progress_backlog: filter the in-progress
rows, group them by order_month (non-null count of order_id, skip-null sum
of total_amount), and sort the months ascending. -/
def in_progress_backlog (enriched_orders_df : Frame) :
    Except PdError (List BacklogRow) :=
  if !(enriched_orders_df.cols.contains "status") then .error (.keyError "status")
  else if !(enriched_orders_df.cols.contains "order_month") then
    .error (.keyError "order_month")
  else if !(enriched_orders_df.cols.contains "order_id") then
    .error (.keyError "order_id")
  else if !(enriched_orders_df.cols.contains "total_amount") then
    .error (.keyError "total_amount")
  else
    let filtered := inProgressFiltered enriched_orders_df
    let ks := dedupKeys ((filtered.colCells "order_month").filter
      (fun c => !c.isNull))
    let grouped := ks.map (fun k =>
      let g := filtered.rows.filter (fun r =>
        Cell.eqv (r.getCell "order_month") k)
      BacklogRow.mk k
        (g.countP (fun r => !(r.getCell "order_id").isNull))
        (sumQ (g.map (fun r => r.getCell "total_amount"))))
    .ok (List.insertionSort
      (fun a b => cellPeriodLE a.order_month b.order_month = true) grouped)

end OrderLifecycleAggregator

/-!
## ReviewAnalyticsAggregator (src/transform/aggregators/review_analytics.py)
-/

namespace ReviewAnalyticsAggregator

/-- The single result row of rating_overview. -/
structure RatingOverviewRow where
  average_rating : Option ℚ
  positive_rate : Option ℚ
  negative_rate : Option ℚ
  review_count : Nat
deriving DecidableEq, Repr

/-- ReviewAnalyticsAggregator.rating_overview: means of rating,
is_positive and is_negative plus the row count, as a one-row table. -/
def rating_overview (enriched_reviews_df : Frame) :
    Except PdError RatingOverviewRow :=
  if !(enriched_reviews_df.cols.contains "rating") then .error (.keyError "rating")
  else if !(enriched_reviews_df.cols.contains "is_positive") then
    .error (.keyError "is_positive")
  else if !(enriched_reviews_df.cols.contains "is_negative") then
    .error (.keyError "is_negative")
  else
    .ok ⟨meanQ (enriched_reviews_df.colCells "rating"),
         meanQ (enriched_reviews_df.colCells "is_positive"),
         meanQ (enriched_reviews_df.colCells "is_negative"),
         enriched_reviews_df.rows.length⟩

/-- One row of the rating_by_product result. -/
structure ProductRatingRow where
  product_id : Cell
  product_name : Cell
  average_rating : Option ℚ
  review_count : Nat
  positive_rate : Option ℚ
deriving DecidableEq, Repr

/-- groupby agg "first": the first non-null value of the group. -/
def firstNonNull (cs : List Cell) : Cell :=
  ((cs.filter (fun c => !c.isNull)).head?).getD .null

/-- sort_values(["average_rating", "review_count"], ascending=[False,
False]) as a boolean comparison: higher rating first, ties broken by
higher review count, NaN ratings last. -/
def ratingSortLE (a b : ProductRatingRow) : Bool :=
  match a.average_rating, b.average_rating with
  | some x, some y =>
      decide (y < x) || (x == y && decide (b.review_count ≤ a.review_count))
  | some _, none => true
  | none, some _ => false
  | none, none => true

/-- ReviewAnalyticsAggregator.rating_by_product: group reviews by product
(first product name, mean rating, non-null review_id count, positive
rate), keep the products with at least min_reviews reviews, rank by
(rating desc, review count desc) and keep the top_n head. -/
def rating_by_product (enriched_reviews_df : Frame)
    (min_reviews top_n : Nat) : Except PdError (List ProductRatingRow) :=
  if !(enriched_reviews_df.cols.contains "product_id") then
    .error (.keyError "product_id")
  else if !(enriched_reviews_df.cols.contains "product_name") then
    .error (.keyError "product_name")
  else if !(enriched_reviews_df.cols.contains "rating") then
    .error (.keyError "rating")
  else if !(enriched_reviews_df.cols.contains "review_id") then
    .error (.keyError "review_id")
  else if !(enriched_reviews_df.cols.contains "is_positive") then
    .error (.keyError "is_positive")
  else
    let ks := dedupKeys ((enriched_reviews_df.colCells "product_id").filter
      (fun c => !c.isNull))
    let grouped := ks.map (fun k =>
      let g := enriched_reviews_df.rows.filter (fun r =>
        Cell.eqv (r.getCell "product_id") k)
      ProductRatingRow.mk k
        (firstNonNull (g.map (fun r => r.getCell "product_name")))
        (meanQ (g.map (fun r => r.getCell "rating")))
        (g.countP (fun r => !(r.getCell "review_id").isNull))
        (meanQ (g.map (fun r => r.getCell "is_positive"))))
    let filtered := grouped.filter (fun p => min_reviews ≤ p.review_count)
    .ok ((List.insertionSort (fun a b => ratingSortLE a b = true)
      filtered).take top_n)

end ReviewAnalyticsAggregator

/-!
## Lemmas and claim theorems

Mathlib marks the rational arithmetic operations irreducible, which blocks
kernel evaluation of concrete tables in the witnesses below; restore the
default transparency for them (proof terms are unaffected).
-/

set_option allowUnsafeReducibility true
attribute [semireducible] Rat.add Rat.mul Rat.sub Rat.neg Rat.inv

/-! ## Basic lemmas about cells and rows -/

theorem Cell.eqv_refl (a : Cell) : Cell.eqv a a = true := by
  cases a <;> simp [Cell.eqv, Cell.toRat?]

theorem Cell.eqv_symm {a b : Cell} (h : Cell.eqv a b = true) :
    Cell.eqv b a = true := by
  cases a <;> cases b <;> simp_all [Cell.eqv, Cell.toRat?]

theorem Cell.eqv_trans {a b c : Cell} (h1 : Cell.eqv a b = true)
    (h2 : Cell.eqv b c = true) : Cell.eqv a c = true := by
  cases a <;> cases b <;> cases c <;> simp_all [Cell.eqv, Cell.toRat?]

theorem Cell.keyEq_euclid {k a b : Cell} (h1 : Cell.keyEq k a = true)
    (h2 : Cell.keyEq k b = true) : Cell.keyEq a b = true := by
  cases k <;> cases a <;> cases b <;>
    simp_all [Cell.keyEq, Cell.toRat?, Cell.isNull]

theorem rowKeyEqv_refl (cols : List String) (r : Row) :
    rowKeyEqv cols r r = true := by
  simp [rowKeyEqv]
  exact fun c _ => Cell.eqv_refl _

theorem rowKeyEqv_symm {cols : List String} {r s : Row}
    (h : rowKeyEqv cols r s = true) : rowKeyEqv cols s r = true := by
  simp only [rowKeyEqv, List.all_eq_true] at h ⊢
  exact fun c hc => Cell.eqv_symm (h c hc)

theorem rowKeyEqv_trans {cols : List String} {r s t : Row}
    (h1 : rowKeyEqv cols r s = true) (h2 : rowKeyEqv cols s t = true) :
    rowKeyEqv cols r t = true := by
  simp only [rowKeyEqv, List.all_eq_true] at h1 h2 ⊢
  exact fun c hc => Cell.eqv_trans (h1 c hc) (h2 c hc)

theorem lookup_setAll {l : List (String × Cell)} {c : String} {v : Cell}
    (h : (l.lookup c).isSome) :
    (l.map (fun p => if p.1 = c then (c, v) else p)).lookup c = some v := by
  induction l with
  | nil => simp [List.lookup] at h
  | cons p rest ih =>
    obtain ⟨k, w⟩ := p
    by_cases hp : k = c
    · subst hp
      have h1 : (((k, w) :: rest).map (fun p => if p.1 = k then (k, v) else p)) =
          (k, v) :: rest.map (fun p => if p.1 = k then (k, v) else p) := by simp
      rw [h1]
      simp [List.lookup]
    · have hne : (c == k) = false := by
        simp only [beq_eq_false_iff_ne]
        exact fun h2 => hp h2.symm
      have h1 : (((k, w) :: rest).map (fun p => if p.1 = c then (c, v) else p)) =
          (k, w) :: rest.map (fun p => if p.1 = c then (c, v) else p) := by simp [hp]
      rw [h1]
      simp only [List.lookup, hne] at h
      simpa [List.lookup, hne] using ih h

theorem lookup_setAll_ne {l : List (String × Cell)} {c c2 : String} {v : Cell}
    (h : c ≠ c2) :
    (l.map (fun p => if p.1 = c then (c, v) else p)).lookup c2 = l.lookup c2 := by
  induction l with
  | nil => simp
  | cons p rest ih =>
    obtain ⟨k, w⟩ := p
    by_cases hp : k = c
    · subst hp
      have hne : (c2 == k) = false := by
        simp only [beq_eq_false_iff_ne]
        exact fun h2 => h h2.symm
      have h1 : (((k, w) :: rest).map (fun p => if p.1 = k then (k, v) else p)) =
          (k, v) :: rest.map (fun p => if p.1 = k then (k, v) else p) := by simp
      rw [h1]
      simp [List.lookup, hne, ih]
    · have h1 : (((k, w) :: rest).map (fun p => if p.1 = c then (c, v) else p)) =
          (k, w) :: rest.map (fun p => if p.1 = c then (c, v) else p) := by simp [hp]
      rw [h1]
      simp [List.lookup, ih]

theorem lookup_append_single {l : List (String × Cell)} {c : String} {v : Cell}
    (h : l.lookup c = none) : (l ++ [(c, v)]).lookup c = some v := by
  induction l with
  | nil => simp [List.lookup]
  | cons p rest ih =>
    obtain ⟨k, w⟩ := p
    by_cases hp : (c == k) = true
    · simp [List.lookup, hp] at h
    · have hne : (c == k) = false := by simpa using hp
      simp only [List.lookup, hne] at h
      simpa [List.lookup, hne] using ih h

theorem lookup_append_ne {l : List (String × Cell)} {c c2 : String} {v : Cell}
    (h : c ≠ c2) : (l ++ [(c, v)]).lookup c2 = l.lookup c2 := by
  induction l with
  | nil =>
    have hne : (c2 == c) = false := by
      simp only [beq_eq_false_iff_ne]
      exact fun h2 => h h2.symm
    simp [List.lookup, hne]
  | cons p rest ih =>
    obtain ⟨k, w⟩ := p
    by_cases hp : (c2 == k) = true
    · simp [List.lookup, hp]
    · have hne : (c2 == k) = false := by simpa using hp
      simp [List.lookup, hne, ih]

theorem Row.getCell_setCell_self (r : Row) (c : String) (v : Cell) :
    (r.setCell c v).getCell c = v := by
  unfold Row.setCell Row.getCell
  split
  · next hs => rw [lookup_setAll hs]; rfl
  · next hs =>
    rw [lookup_append_single (Option.not_isSome_iff_eq_none.mp hs)]
    rfl

theorem Row.getCell_setCell_ne (r : Row) {c c2 : String} (v : Cell)
    (h : c ≠ c2) : (r.setCell c v).getCell c2 = r.getCell c2 := by
  unfold Row.setCell Row.getCell
  split
  · rw [lookup_setAll_ne h]
  · rw [lookup_append_ne h]

theorem Frame.getCell_selectRow {cs : List String} {c : String} (r : Row)
    (h : c ∈ cs) : (Frame.selectRow cs r).getCell c = r.getCell c := by
  induction cs with
  | nil => simp at h
  | cons d rest ih =>
    by_cases hd : c = d
    · subst hd
      simp [Frame.selectRow, Row.getCell, List.lookup]
    · have hne : (c == d) = false := by simpa using hd
      have hmem : c ∈ rest := by
        rcases List.mem_cons.mp h with h1 | h1
        · exact absurd h1 hd
        · exact h1
      simpa [Frame.selectRow, Row.getCell, List.lookup, hne] using ih hmem

/-! ## Deduplication (claim C4) -/

theorem getLast?_cons_of_ne_nil {α : Type} {xs : List α} (a : α)
    (h : xs ≠ []) : (a :: xs).getLast? = xs.getLast? := by
  cases xs with
  | nil => exact absurd rfl h
  | cons b ys => exact List.getLast?_cons_cons

theorem dropDupLast_sublist (cols : List String) :
    ∀ l : List Row, List.Sublist (dropDupLast cols l) l := by
  intro l
  induction l with
  | nil => simp [dropDupLast]
  | cons r rest ih =>
    unfold dropDupLast
    split
    · exact List.Sublist.cons r ih
    · exact List.Sublist.cons₂ r ih

theorem dropDupLast_filter (cols : List String) (k : Row) :
    ∀ l : List Row,
      (dropDupLast cols l).filter (fun r => rowKeyEqv cols r k) =
        ((l.filter (fun r => rowKeyEqv cols r k)).getLast?).toList := by
  intro l
  induction l with
  | nil => simp [dropDupLast]
  | cons r rest ih =>
    unfold dropDupLast
    by_cases hdup : rest.any (fun s => rowKeyEqv cols s r) = true
    · rw [if_pos hdup]
      by_cases hk : rowKeyEqv cols r k = true
      · obtain ⟨s, hs_mem, hs⟩ := List.any_eq_true.mp hdup
        have hsk : rowKeyEqv cols s k = true := rowKeyEqv_trans hs hk
        have hmem : s ∈ rest.filter (fun r => rowKeyEqv cols r k) :=
          List.mem_filter.mpr ⟨hs_mem, hsk⟩
        have hfil : (r :: rest).filter (fun r => rowKeyEqv cols r k) =
            r :: rest.filter (fun r => rowKeyEqv cols r k) := by
          simp [List.filter_cons, hk]
        rw [hfil, getLast?_cons_of_ne_nil r (List.ne_nil_of_mem hmem)]
        exact ih
      · have hfil : (r :: rest).filter (fun r => rowKeyEqv cols r k) =
            rest.filter (fun r => rowKeyEqv cols r k) := by
          simp [List.filter_cons, hk]
        rw [hfil]
        exact ih
    · rw [if_neg hdup]
      by_cases hk : rowKeyEqv cols r k = true
      · have hempty : rest.filter (fun r => rowKeyEqv cols r k) = [] := by
          rw [List.filter_eq_nil_iff]
          intro s hs hsk
          have hsr : rowKeyEqv cols s r = true :=
            rowKeyEqv_trans (by simpa using hsk) (rowKeyEqv_symm hk)
          exact absurd (List.any_eq_true.mpr ⟨s, hs, hsr⟩) hdup
        have hfil1 : (r :: dropDupLast cols rest).filter
            (fun r => rowKeyEqv cols r k) =
            r :: (dropDupLast cols rest).filter (fun r => rowKeyEqv cols r k) := by
          simp [List.filter_cons, hk]
        have hfil2 : (r :: rest).filter (fun r => rowKeyEqv cols r k) =
            r :: rest.filter (fun r => rowKeyEqv cols r k) := by
          simp [List.filter_cons, hk]
        rw [hfil1, hfil2, ih, hempty]
        rfl
      · have hfil1 : (r :: dropDupLast cols rest).filter
            (fun r => rowKeyEqv cols r k) =
            (dropDupLast cols rest).filter (fun r => rowKeyEqv cols r k) := by
          simp [List.filter_cons, hk]
        have hfil2 : (r :: rest).filter (fun r => rowKeyEqv cols r k) =
            rest.filter (fun r => rowKeyEqv cols r k) := by
          simp [List.filter_cons, hk]
        rw [hfil1, hfil2]
        exact ih

/-- C4: after handle_duplicates each declared key value (inventory_id,
review_id) appears in exactly one row, that row being the last row bearing
the key in the input's order (so rows whose key was already unique are
kept unchanged), and the output is a sublist of the input's rows. -/
theorem handle_duplicates_keeps_last :
    ∀ (df : Frame) (k : Row),
      ((InventoryCleaner.handle_duplicates df).rows.filter
          (fun r => rowKeyEqv ["inventory_id"] r k) =
        ((df.rows.filter
          (fun r => rowKeyEqv ["inventory_id"] r k)).getLast?).toList ∧
       List.Sublist (InventoryCleaner.handle_duplicates df).rows df.rows) ∧
      ((ReviewsCleaner.handle_duplicates df).rows.filter
          (fun r => rowKeyEqv ["review_id"] r k) =
        ((df.rows.filter
          (fun r => rowKeyEqv ["review_id"] r k)).getLast?).toList ∧
       List.Sublist (ReviewsCleaner.handle_duplicates df).rows df.rows) := by
  intro df k
  exact ⟨⟨dropDupLast_filter _ k df.rows, dropDupLast_sublist _ df.rows⟩,
    ⟨dropDupLast_filter _ k df.rows, dropDupLast_sublist _ df.rows⟩⟩

/-! ## Null primary keys abort cleaning (claim C3) -/

theorem validate_no_nulls_error_of_mem {df : Frame} {cols : List String}
    {c : String} (hmem : c ∈ cols) (hnull : df.colHasNull c = true) :
    SchemaValidator.validate_no_nulls df (some cols) =
      .error (.nullConstraint (cols.filter (fun c => df.colHasNull c))) := by
  unfold SchemaValidator.validate_no_nulls
  have hm : c ∈ cols.filter (fun c => df.colHasNull c) :=
    List.mem_filter.mpr ⟨hmem, hnull⟩
  have hne : (cols.filter (fun c => df.colHasNull c)).isEmpty = false := by
    rw [List.isEmpty_eq_false]
    exact List.ne_nil_of_mem hm
  simp [hne]

theorem clean_null_key_raises :
    ∀ df : Frame,
      (df.rows.any (fun r => r.lookup "inventory_id" == some Cell.null) = true →
        ∃ cs, InventoryCleaner.clean df = .error (.nullConstraint cs) ∧
          "inventory_id" ∈ cs) ∧
      (df.rows.any (fun r => r.lookup "review_id" == some Cell.null) = true →
        ∃ cs, ReviewsCleaner.clean df = .error (.nullConstraint cs) ∧
          "review_id" ∈ cs) := by
  intro df
  constructor
  · intro h
    have hnull : df.colHasNull "inventory_id" = true := by
      obtain ⟨r, hr, hr2⟩ := List.any_eq_true.mp h
      refine List.any_eq_true.mpr ⟨r, hr, ?_⟩
      have hl : r.lookup "inventory_id" = some Cell.null := by simpa using hr2
      simp [Row.getCell, hl, Cell.isNull]
    have hval := @validate_no_nulls_error_of_mem df
      ["inventory_id", "product_id", "warehouse_id"]
      "inventory_id" (by simp) hnull
    refine ⟨["inventory_id", "product_id", "warehouse_id"].filter
      (fun c => df.colHasNull c), ?_, List.mem_filter.mpr ⟨by simp, hnull⟩⟩
    show (do
      let df ← InventoryCleaner.handle_nulls df
      let df := InventoryCleaner.handle_duplicates df
      let df ← InventoryCleaner.convert_types df
      InventoryCleaner.validate_cleaned_data df) = _
    have hhn : InventoryCleaner.handle_nulls df =
        .error (.nullConstraint (["inventory_id", "product_id",
          "warehouse_id"].filter (fun c => df.colHasNull c))) := by
      unfold InventoryCleaner.handle_nulls
      rw [hval]
      rfl
    rw [hhn]
    rfl
  · intro h
    have hnull : df.colHasNull "review_id" = true := by
      obtain ⟨r, hr, hr2⟩ := List.any_eq_true.mp h
      refine List.any_eq_true.mpr ⟨r, hr, ?_⟩
      have hl : r.lookup "review_id" = some Cell.null := by simpa using hr2
      simp [Row.getCell, hl, Cell.isNull]
    have hval := @validate_no_nulls_error_of_mem df
      ["review_id", "product_id", "customer_id", "rating", "created_at"]
      "review_id" (by simp) hnull
    refine ⟨["review_id", "product_id", "customer_id", "rating",
      "created_at"].filter (fun c => df.colHasNull c), ?_,
      List.mem_filter.mpr ⟨by simp, hnull⟩⟩
    show (do
      let df ← ReviewsCleaner.handle_nulls df
      let df := ReviewsCleaner.handle_duplicates df
      let df := ReviewsCleaner.convert_types df
      ReviewsCleaner.validate_cleaned_data df) = _
    have hhn : ReviewsCleaner.handle_nulls df =
        .error (.nullConstraint (["review_id", "product_id", "customer_id",
          "rating", "created_at"].filter (fun c => df.colHasNull c))) := by
      unfold ReviewsCleaner.handle_nulls
      rw [hval]
      rfl
    rw [hhn]
    rfl

/-- Witness for C3: a concrete inventory table with a null inventory_id
and a concrete reviews table with a null review_id; clean rejects both
with a NullConstraintError naming the key column. -/
theorem clean_null_key_raises_witness :
    ((Frame.mk ["inventory_id", "product_id"]
        [[("inventory_id", Cell.null), ("product_id", Cell.int 1)]]).rows.any
      (fun r => r.lookup "inventory_id" == some Cell.null) = true ∧
     ∃ cs, InventoryCleaner.clean (Frame.mk ["inventory_id", "product_id"]
        [[("inventory_id", Cell.null), ("product_id", Cell.int 1)]]) =
          .error (.nullConstraint cs) ∧ "inventory_id" ∈ cs) ∧
    ((Frame.mk ["review_id"] [[("review_id", Cell.null)]]).rows.any
      (fun r => r.lookup "review_id" == some Cell.null) = true ∧
     ∃ cs, ReviewsCleaner.clean (Frame.mk ["review_id"]
        [[("review_id", Cell.null)]]) =
          .error (.nullConstraint cs) ∧ "review_id" ∈ cs) :=
  ⟨⟨by decide, (clean_null_key_raises _).1 (by decide)⟩,
   ⟨by decide, (clean_null_key_raises _).2 (by decide)⟩⟩

/-! ## Catalog validation null checks (claim C9) -/

theorem validate_required_columns_ok {df : Frame} {names : List String}
    (h : names.all (fun c => df.cols.contains c) = true) :
    SchemaValidator.validate_required_columns df names = .ok () := by
  unfold SchemaValidator.validate_required_columns
  have hnil : names.filter (fun c => !df.cols.contains c) = [] := by
    rw [List.filter_eq_nil_iff]
    intro a ha
    have hc := List.all_eq_true.mp h a ha
    simp_all
  rw [hnil]
  rfl

theorem validate_no_nulls_ok {df : Frame} {cols : List String}
    (h : cols.all (fun c => !df.colHasNull c) = true) :
    SchemaValidator.validate_no_nulls df (some cols) = .ok () := by
  simp only [SchemaValidator.validate_no_nulls, Option.getD_some]
  have hnil : cols.filter (fun c => df.colHasNull c) = [] := by
    rw [List.filter_eq_nil_iff]
    intro a ha hnull
    have := List.all_eq_true.mp h a ha
    simp_all
  rw [hnil]
  rfl

theorem validate_no_nulls_all_error_of_mem {df : Frame} {c : String}
    (hmem : c ∈ df.cols) (hnull : df.colHasNull c = true) :
    SchemaValidator.validate_no_nulls df none =
      .error (.nullConstraint (df.cols.filter (fun c => df.colHasNull c))) := by
  unfold SchemaValidator.validate_no_nulls
  have hm : c ∈ df.cols.filter (fun c => df.colHasNull c) :=
    List.mem_filter.mpr ⟨hmem, hnull⟩
  have hne : (df.cols.filter (fun c => df.colHasNull c)).isEmpty = false := by
    rw [List.isEmpty_eq_false]
    exact List.ne_nil_of_mem hm
  simp [hne]

/-- C9 counterexample: a products catalog whose key column product_id is
free of nulls but whose non-key column product_name holds a null does NOT
pass catalog validation — ReviewsEnricher._join_products rejects it with a
NullConstraintError on product_name, so the claim that only key columns
are null-checked fails on this input. -/
theorem join_products_null_nonkey_fails :
    (Frame.mk ["product_id", "product_name", "category_id", "brand_id"]
      [[("product_id", Cell.int 1), ("product_name", Cell.null),
        ("category_id", Cell.int 2), ("brand_id", Cell.int 3)]]).rows.all
      (fun r => !(r.getCell "product_id").isNull) = true ∧
    ReviewsEnricher.join_products (Frame.mk [] [])
      (Frame.mk ["product_id", "product_name", "category_id", "brand_id"]
        [[("product_id", Cell.int 1), ("product_name", Cell.null),
          ("category_id", Cell.int 2), ("brand_id", Cell.int 3)]]) =
      .error (.nullConstraint ["product_name"]) := by
  constructor
  · rfl
  · rfl

/-- C9 amended: catalog null checks cover fixed per-catalog column lists,
not only the join keys.  The reviews-enricher products catalog is
null-checked over ALL of its columns, so a null in any column (key or not)
fails enrichment with a NullConstraintError naming it; the orders-enricher
customers catalog is null-checked on customer_id and segment only, and
passes whenever those two are null-free, even if other columns (such as
registration_date) contain nulls. -/
theorem catalog_null_checks_amended :
    ∀ (rv pdf cdf : Frame) (c : String),
      ((["product_id", "product_name", "category_id", "brand_id"].all
          (fun n => pdf.cols.contains n) = true) →
        c ∈ pdf.cols → pdf.colHasNull c = true →
        ∃ cs, ReviewsEnricher.join_products rv pdf =
          .error (.nullConstraint cs) ∧ c ∈ cs) ∧
      ((["customer_id", "segment", "registration_date"].all
          (fun n => cdf.cols.contains n) = true) →
        (["customer_id", "segment"].all
          (fun n => !cdf.colHasNull n) = true) →
        ∃ out, OrdersEnricher.validate_customers cdf = .ok out) := by
  intro rv pdf cdf c
  constructor
  · intro hreq hmem hnull
    refine ⟨pdf.cols.filter (fun n => pdf.colHasNull n), ?_,
      List.mem_filter.mpr ⟨hmem, hnull⟩⟩
    show (do
      SchemaValidator.validate_required_columns pdf
        ["product_id", "product_name", "category_id", "brand_id"]
      SchemaValidator.validate_no_nulls pdf none
      let sel ← pdf.selectE ["product_id", "product_name", "category_id",
        "brand_id"]
      pure (leftMerge rv sel "product_id")) = _
    rw [validate_required_columns_ok hreq]
    show (do
      SchemaValidator.validate_no_nulls pdf none
      let sel ← pdf.selectE ["product_id", "product_name", "category_id",
        "brand_id"]
      pure (leftMerge rv sel "product_id")) = _
    rw [validate_no_nulls_all_error_of_mem hmem hnull]
    rfl
  · intro hreq hnn
    refine ⟨cdf.mapCol "registration_date" Cell.toDatetime, ?_⟩
    show (do
      SchemaValidator.validate_required_columns cdf
        ["customer_id", "segment", "registration_date"]
      SchemaValidator.validate_no_nulls cdf (some ["customer_id", "segment"])
      cdf.mapColE "registration_date" Cell.toDatetime) = _
    rw [validate_required_columns_ok hreq, validate_no_nulls_ok hnn]
    show cdf.mapColE "registration_date" Cell.toDatetime = _
    unfold Frame.mapColE
    have hcont : cdf.cols.contains "registration_date" = true := by
      have := List.all_eq_true.mp hreq "registration_date" (by simp)
      simpa using this
    rw [if_pos hcont]

/-- Witness for C9 amended: a products catalog with a null in the non-key
column category_id fails, while a customers catalog whose customer_id and
segment are clean passes validation even though registration_date is
null. -/
theorem catalog_null_checks_amended_witness :
    ((["product_id", "product_name", "category_id", "brand_id"].all
        (fun n => (Frame.mk ["product_id", "product_name", "category_id",
          "brand_id"] [[("product_id", Cell.int 1),
          ("product_name", Cell.str "Gadget"), ("category_id", Cell.null),
          ("brand_id", Cell.int 3)]]).cols.contains n) = true) ∧
      (∃ cs, ReviewsEnricher.join_products (Frame.mk [] [])
        (Frame.mk ["product_id", "product_name", "category_id", "brand_id"]
          [[("product_id", Cell.int 1), ("product_name", Cell.str "Gadget"),
            ("category_id", Cell.null), ("brand_id", Cell.int 3)]]) =
        .error (.nullConstraint cs) ∧ "category_id" ∈ cs)) ∧
    (∃ out, OrdersEnricher.validate_customers
      (Frame.mk ["customer_id", "segment", "registration_date"]
        [[("customer_id", Cell.int 1), ("segment", Cell.str "vip"),
          ("registration_date", Cell.null)]]) = .ok out) :=
  ⟨⟨by decide, ((catalog_null_checks_amended (Frame.mk [] []) _
      (Frame.mk [] []) "category_id").1 (by decide) (by decide)
      (by decide))⟩,
    ((catalog_null_checks_amended (Frame.mk [] []) (Frame.mk [] [])
      _ "category_id").2 (by decide) (by decide))⟩

/-! ## Case-insensitive status matching (claim C10) -/

theorem count_true_map {α : Type} (l : List α) (p : α → Bool) :
    (l.map p).count true = l.countP p := by
  induction l with
  | nil => simp
  | cons a t ih =>
    simp only [List.map_cons, List.count_cons, List.countP_cons, ih]
    cases h : p a <;> simp [h]

theorem strLower_eq_match (r : Row) (target : String) :
    ((r.getCell "status").strLower == some target) =
      (match r.getCell "status" with
       | Cell.str s => lowerStr s == target
       | _ => false) := by
  cases h : r.getCell "status" <;> simp [Cell.strLower, h]

/-- C10: status matching is case-insensitive — cancellation_rate counts a
row exactly when its status is a string lowercasing to "cancelled",
delivery_rate likewise for "delivered", and the in-progress filter keeps a
row exactly when its status is a string lowercasing to pending, processing
or shipped; mixed-case statuses are therefore counted. -/
theorem status_matching_case_insensitive :
    ∀ (df : Frame) (row : Row),
      (df.cols.contains "status" = true →
        OrderLifecycleAggregator.cancellation_rate df =
          .ok (if df.rows.length = 0 then none else
            some ((df.rows.countP (fun r =>
              match r.getCell "status" with
              | Cell.str s => lowerStr s == "cancelled"
              | _ => false) : ℚ) / (df.rows.length : ℚ)))) ∧
      (df.cols.contains "status" = true →
        OrderLifecycleAggregator.delivery_rate df =
          .ok (if df.rows.length = 0 then none else
            some ((df.rows.countP (fun r =>
              match r.getCell "status" with
              | Cell.str s => lowerStr s == "delivered"
              | _ => false) : ℚ) / (df.rows.length : ℚ)))) ∧
      (row ∈ (OrderLifecycleAggregator.inProgressFiltered df).rows ↔
        row ∈ df.rows ∧ ∃ s, row.getCell "status" = Cell.str s ∧
          lowerStr s ∈ ["pending", "processing", "shipped"]) := by
  intro df row
  refine ⟨?_, ?_, ?_⟩
  · intro hc
    unfold OrderLifecycleAggregator.cancellation_rate
    rw [if_pos hc]
    unfold meanB Frame.colCells
    congr 1
    rw [List.length_map, List.length_map]
    split
    · rfl
    · congr 1
      rw [List.map_map, count_true_map]
      have hfun : ((fun c => c.strLower == some "cancelled") ∘
          fun r : Row => r.getCell "status") =
          (fun r : Row => match r.getCell "status" with
            | Cell.str s => lowerStr s == "cancelled"
            | _ => false) := by
        funext r
        exact strLower_eq_match r "cancelled"
      rw [hfun]
  · intro hc
    unfold OrderLifecycleAggregator.delivery_rate
    rw [if_pos hc]
    unfold meanB Frame.colCells
    congr 1
    rw [List.length_map, List.length_map]
    split
    · rfl
    · congr 1
      rw [List.map_map, count_true_map]
      have hfun : ((fun c => c.strLower == some "delivered") ∘
          fun r : Row => r.getCell "status") =
          (fun r : Row => match r.getCell "status" with
            | Cell.str s => lowerStr s == "delivered"
            | _ => false) := by
        funext r
        exact strLower_eq_match r "delivered"
      rw [hfun]
  · unfold OrderLifecycleAggregator.inProgressFiltered
    simp only [List.mem_filter]
    constructor
    · rintro ⟨hmem, hp⟩
      refine ⟨hmem, ?_⟩
      cases h : row.getCell "status" with
      | str s =>
        rw [h] at hp
        simp only [Cell.strLower] at hp
        refine ⟨s, rfl, ?_⟩
        simpa using hp
      | null => rw [h] at hp; simp [Cell.strLower] at hp
      | int i => rw [h] at hp; simp [Cell.strLower] at hp
      | rat q => rw [h] at hp; simp [Cell.strLower] at hp
      | bool b => rw [h] at hp; simp [Cell.strLower] at hp
      | date t => rw [h] at hp; simp [Cell.strLower] at hp
    · rintro ⟨hmem, s, hs, hlow⟩
      refine ⟨hmem, ?_⟩
      rw [hs]
      simp only [Cell.strLower]
      simpa using hlow

/-- A small orders status table with mixed-case statuses. -/
def statusFrameX : Frame :=
  Frame.mk ["status"]
    [[("status", Cell.str "CANCELLED")],
     [("status", Cell.str "Delivered")],
     [("status", Cell.str "ShIpPeD")]]

/-- Witness for C10: on the mixed-case table, "CANCELLED" is counted by
cancellation_rate (rate 1/3), "Delivered" by delivery_rate, and the
"ShIpPeD" row passes the in-progress filter. -/
theorem status_matching_case_insensitive_witness :
    (statusFrameX.cols.contains "status" = true) ∧
    OrderLifecycleAggregator.cancellation_rate statusFrameX =
      .ok (if statusFrameX.rows.length = 0 then none else
        some ((statusFrameX.rows.countP (fun r =>
          match r.getCell "status" with
          | Cell.str s => lowerStr s == "cancelled"
          | _ => false) : ℚ) / (statusFrameX.rows.length : ℚ))) ∧
    OrderLifecycleAggregator.cancellation_rate statusFrameX =
      .ok (some (1 / 3 : ℚ)) ∧
    OrderLifecycleAggregator.delivery_rate statusFrameX =
      .ok (some (1 / 3 : ℚ)) ∧
    [("status", Cell.str "ShIpPeD")] ∈
      (OrderLifecycleAggregator.inProgressFiltered statusFrameX).rows :=
  ⟨by decide,
   (status_matching_case_insensitive statusFrameX []).1 (by decide),
   by rfl,
   by rfl,
   ((status_matching_case_insensitive statusFrameX
      [("status", Cell.str "ShIpPeD")]).2.2).mpr
     ⟨by decide, "ShIpPeD", by decide, by decide⟩⟩

/-! ## Aggregator failure semantics (claim C7) -/

/-- C7 counterexample: on an empty orders table that does have the status
column, cancellation_rate returns NaN (modelled none), not a zero-valued
scalar, so the claim's "empty or zero-valued result" fails on this
input. -/
theorem cancellation_rate_empty_is_nan :
    OrderLifecycleAggregator.cancellation_rate (Frame.mk ["status"] []) =
      .ok none ∧
    OrderLifecycleAggregator.cancellation_rate (Frame.mk ["status"] []) ≠
      .ok (some (0 : ℚ)) := by
  constructor
  · rfl
  · intro h
    rw [show OrderLifecycleAggregator.cancellation_rate
      (Frame.mk ["status"] []) = .ok none from rfl] at h
    simp at h

/-- C7 amended: an empty input table with the required columns present
never raises, but the scalar rates are NaN (none) rather than 0 and
rating_overview yields a single row of NaN means with count 0; only the
table-valued aggregators return an empty table.  A missing required
column fails with a Python KeyError, which is not in the
SchemaValidationError family (aggregators never use the SchemaValidator). -/
theorem aggregator_empty_and_missing_column :
    ∀ df : Frame,
      (df.cols.contains "status" = true → df.rows = [] →
        OrderLifecycleAggregator.cancellation_rate df = .ok none) ∧
      (df.cols.contains "status" = true → df.rows = [] →
        OrderLifecycleAggregator.delivery_rate df = .ok none) ∧
      ((df.cols.contains "status" = true ∧
        df.cols.contains "order_month" = true ∧
        df.cols.contains "order_id" = true ∧
        df.cols.contains "total_amount" = true) → df.rows = [] →
        OrderLifecycleAggregator.in_progress_backlog df = .ok []) ∧
      ((df.cols.contains "rating" = true ∧
        df.cols.contains "is_positive" = true ∧
        df.cols.contains "is_negative" = true) → df.rows = [] →
        ReviewAnalyticsAggregator.rating_overview df =
          .ok ⟨none, none, none, 0⟩) ∧
      (df.cols.contains "status" = false →
        OrderLifecycleAggregator.cancellation_rate df =
          .error (.keyError "status") ∧
        (PdError.keyError "status").isSchemaValidationError = false) ∧
      (df.cols.contains "rating" = false →
        ReviewAnalyticsAggregator.rating_overview df =
          .error (.keyError "rating") ∧
        (PdError.keyError "rating").isSchemaValidationError = false) := by
  intro df
  refine ⟨?_, ?_, ?_, ?_, ?_, ?_⟩
  · intro hc he
    unfold OrderLifecycleAggregator.cancellation_rate
    rw [if_pos hc]
    simp [Frame.colCells, he, meanB]
  · intro hc he
    unfold OrderLifecycleAggregator.delivery_rate
    rw [if_pos hc]
    simp [Frame.colCells, he, meanB]
  · rintro ⟨h1, h2, h3, h4⟩ he
    unfold OrderLifecycleAggregator.in_progress_backlog
    rw [if_neg (by simp at h1; simp [h1]),
      if_neg (by simp at h2; simp [h2]),
      if_neg (by simp at h3; simp [h3]),
      if_neg (by simp at h4; simp [h4])]
    simp [OrderLifecycleAggregator.inProgressFiltered, he, Frame.colCells,
      dedupKeys]
  · rintro ⟨h1, h2, h3⟩ he
    unfold ReviewAnalyticsAggregator.rating_overview
    rw [if_neg (by simp at h1; simp [h1]),
      if_neg (by simp at h2; simp [h2]),
      if_neg (by simp at h3; simp [h3])]
    simp [Frame.colCells, he, meanQ]
  · intro hc
    refine ⟨?_, rfl⟩
    unfold OrderLifecycleAggregator.cancellation_rate
    rw [if_neg (by simp at hc; simp [hc])]
  · intro hc
    refine ⟨?_, rfl⟩
    unfold ReviewAnalyticsAggregator.rating_overview
    rw [if_pos (by simp at hc; simp [hc])]

/-- Witness for C7 amended: the empty table with the expected columns
yields NaN rates, an empty backlog and a NaN overview row; a table without
the status (resp. rating) column yields a KeyError. -/
theorem aggregator_empty_and_missing_column_witness :
    OrderLifecycleAggregator.cancellation_rate
      (Frame.mk ["status", "order_month", "order_id", "total_amount"] []) =
      .ok none ∧
    OrderLifecycleAggregator.in_progress_backlog
      (Frame.mk ["status", "order_month", "order_id", "total_amount"] []) =
      .ok [] ∧
    ReviewAnalyticsAggregator.rating_overview
      (Frame.mk ["rating", "is_positive", "is_negative"] []) =
      .ok ⟨none, none, none, 0⟩ ∧
    OrderLifecycleAggregator.cancellation_rate (Frame.mk ["order_id"] []) =
      .error (.keyError "status") ∧
    ReviewAnalyticsAggregator.rating_overview (Frame.mk ["order_id"] []) =
      .error (.keyError "rating") :=
  ⟨(aggregator_empty_and_missing_column _).1 (by decide) rfl,
   (aggregator_empty_and_missing_column _).2.2.1
     ⟨by decide, by decide, by decide, by decide⟩ rfl,
   (aggregator_empty_and_missing_column _).2.2.2.1
     ⟨by decide, by decide, by decide⟩ rfl,
   ((aggregator_empty_and_missing_column _).2.2.2.2.1 (by decide)).1,
   ((aggregator_empty_and_missing_column _).2.2.2.2.2 (by decide)).1⟩

/-! ## Division safety of avg_item_price (claim C2) -/

/-- C2: in the output of
_calculate_order_products_count_and_average_price, a row whose items_count
is missing (no matching items) or zero has avg_item_price exactly 0, and a
row with numeric items_count q > 0 and numeric total_amount t has
avg_item_price t / q. -/
theorem avg_item_price_division_safety :
    ∀ (orders_df order_items_df : Frame) (row : Row),
      row ∈ (OrdersEnricher.calculate_order_products_count_and_average_price
        orders_df order_items_df).rows →
      ((row.getCell "items_count" = Cell.null ∨
        (row.getCell "items_count").toRat? = some 0) →
          row.getCell "avg_item_price" = Cell.rat 0) ∧
      (∀ q t : ℚ, (row.getCell "items_count").toRat? = some q → 0 < q →
        (row.getCell "total_amount").toRat? = some t →
          row.getCell "avg_item_price" = Cell.rat (t / q)) := by
  intro orders_df order_items_df row hmem
  unfold OrdersEnricher.calculate_order_products_count_and_average_price
    Frame.mapCol Frame.setColByRow at hmem
  simp only [List.mem_map] at hmem
  obtain ⟨m1, ⟨m, hm, hm1⟩, hrow⟩ := hmem
  subst hm1
  subst hrow
  set g := fun r : Row => Cell.divCell (r.getCell "total_amount")
    ((r.getCell "items_count").replaceZeroNA) with hg
  have hget_avg1 : (m.setCell "avg_item_price" (g m)).getCell
      "avg_item_price" = g m := Row.getCell_setCell_self m _ _
  have hrow_avg : ((m.setCell "avg_item_price" (g m)).setCell
      "avg_item_price" (Cell.fillZero ((m.setCell "avg_item_price"
        (g m)).getCell "avg_item_price"))).getCell "avg_item_price" =
      Cell.fillZero (g m) := by
    rw [Row.getCell_setCell_self, hget_avg1]
  have hrow_count : ((m.setCell "avg_item_price" (g m)).setCell
      "avg_item_price" (Cell.fillZero ((m.setCell "avg_item_price"
        (g m)).getCell "avg_item_price"))).getCell "items_count" =
      m.getCell "items_count" := by
    rw [Row.getCell_setCell_ne _ _ (by decide),
      Row.getCell_setCell_ne _ _ (by decide)]
  have hrow_total : ((m.setCell "avg_item_price" (g m)).setCell
      "avg_item_price" (Cell.fillZero ((m.setCell "avg_item_price"
        (g m)).getCell "avg_item_price"))).getCell "total_amount" =
      m.getCell "total_amount" := by
    rw [Row.getCell_setCell_ne _ _ (by decide),
      Row.getCell_setCell_ne _ _ (by decide)]
  constructor
  · intro hcase
    rw [hrow_avg]
    rw [hrow_count] at hcase
    have hrep : (m.getCell "items_count").replaceZeroNA = Cell.null := by
      rcases hcase with hnull | hzero
      · rw [hnull]
        rfl
      · unfold Cell.replaceZeroNA
        rw [if_pos (by simp [hzero])]
    rw [hg]
    simp only [hrep]
    have hdiv : Cell.divCell (m.getCell "total_amount") Cell.null =
        Cell.null := by
      unfold Cell.divCell
      cases h : (m.getCell "total_amount").toRat? <;> rfl
    rw [hdiv]
    rfl
  · intro q t hq hqpos ht
    rw [hrow_avg]
    rw [hrow_count] at hq
    rw [hrow_total] at ht
    have hrep : (m.getCell "items_count").replaceZeroNA =
        m.getCell "items_count" := by
      unfold Cell.replaceZeroNA
      rw [if_neg]
      simp only [hq]
      simp only [beq_iff_eq, Option.some.injEq]
      intro h0
      rw [h0] at hqpos
      exact lt_irrefl 0 hqpos
    rw [hg]
    simp only [hrep]
    unfold Cell.divCell
    rw [hq, ht]
    rfl

/-- A two-row orders table: order 1 has total 109 and two item rows with
quantities 1 and 2; order 2 has no items at all. -/
def ordersMiniX : Frame :=
  Frame.mk ["order_id", "total_amount"]
    [[("order_id", Cell.int 1), ("total_amount", Cell.rat 109)],
     [("order_id", Cell.int 2), ("total_amount", Cell.rat 50)]]

/-- Order items for `ordersMiniX`: both belong to order 1. -/
def itemsMiniX : Frame :=
  Frame.mk ["order_id", "quantity"]
    [[("order_id", Cell.int 1), ("quantity", Cell.int 1)],
     [("order_id", Cell.int 1), ("quantity", Cell.int 2)]]

/-- Witness for C2: the order with items gets avg_item_price 109/3; the
order without matching items gets items_count null and avg_item_price 0,
with no division error. -/
theorem avg_item_price_division_safety_witness :
    ([("order_id", Cell.int 2), ("total_amount", Cell.rat 50),
      ("items_count", Cell.null), ("avg_item_price", Cell.rat 0)] ∈
      (OrdersEnricher.calculate_order_products_count_and_average_price
        ordersMiniX itemsMiniX).rows ∧
     Row.getCell [("order_id", Cell.int 2), ("total_amount", Cell.rat 50),
      ("items_count", Cell.null), ("avg_item_price", Cell.rat 0)]
      "avg_item_price" = Cell.rat 0) ∧
    ([("order_id", Cell.int 1), ("total_amount", Cell.rat 109),
      ("items_count", Cell.rat 3), ("avg_item_price", Cell.rat (109 / 3))] ∈
      (OrdersEnricher.calculate_order_products_count_and_average_price
        ordersMiniX itemsMiniX).rows ∧
     Row.getCell [("order_id", Cell.int 1), ("total_amount", Cell.rat 109),
      ("items_count", Cell.rat 3), ("avg_item_price", Cell.rat (109 / 3))]
      "avg_item_price" = Cell.rat (109 / 3)) :=
  ⟨⟨by decide,
    (avg_item_price_division_safety ordersMiniX itemsMiniX _ (by decide)).1
      (Or.inl (by decide))⟩,
   ⟨by decide,
    (avg_item_price_division_safety ordersMiniX itemsMiniX _ (by decide)).2
      3 109 (by decide) (by decide) (by decide)⟩⟩

/-! ## Left joins keep unmatched rows with nulls (claim C5) -/

theorem lookup_append_left_none {l1 l2 : Row} {c : String}
    (h : l1.lookup c = none) : (l1 ++ l2).lookup c = l2.lookup c := by
  induction l1 with
  | nil => simp
  | cons p rest ih =>
    obtain ⟨k, w⟩ := p
    by_cases hp : (c == k) = true
    · simp [List.lookup, hp] at h
    · have hne : (c == k) = false := by simpa using hp
      simp only [List.lookup, hne] at h
      simpa [List.lookup, hne] using ih h

theorem lookup_null_pad {cs : List String} {c : String} (h : c ∈ cs) :
    (cs.map (fun c => (c, Cell.null))).lookup c = some Cell.null := by
  induction cs with
  | nil => simp at h
  | cons d rest ih =>
    by_cases hd : c = d
    · subst hd
      simp [List.lookup]
    · have hne : (c == d) = false := by simpa using hd
      have hmem : c ∈ rest := by
        rcases List.mem_cons.mp h with h1 | h1
        · exact absurd h1 hd
        · exact h1
      simpa [List.lookup, hne] using ih hmem

/-- The unmatched-row case of a left merge: if no right row's key matches
the given left row, the merge output contains the left row padded with a
null for every non-key right column. -/
theorem leftMerge_unmatched {l r : Frame} {key : String} {row : Row}
    (hrow : row ∈ l.rows)
    (hnomatch : ∀ b ∈ r.rows,
      Cell.keyEq (row.getCell key) (b.getCell key) = false) :
    (row ++ (r.cols.filter (fun c => c ≠ key)).map
      (fun c => (c, Cell.null))) ∈ (leftMerge l r key).rows := by
  unfold leftMerge
  simp only [List.mem_flatMap]
  refine ⟨row, hrow, ?_⟩
  have hfil : r.rows.filter
      (fun b => Cell.keyEq (row.getCell key) (b.getCell key)) = [] := by
    rw [List.filter_eq_nil_iff]
    intro b hb hkeq
    rw [hnomatch b hb] at hkeq
    exact absurd hkeq (by simp)
  rw [hfil]
  simp

/-- C5: for both cited joins, a primary row whose foreign key matches no
catalog row is still present in the join output, padded with nulls; and
when the primary row does not itself bind the catalog columns, reading any
joined catalog column from that output row gives null. -/
theorem left_join_keeps_unmatched :
    ∀ (odf pdf rdf cdf out out2 : Frame) (row : Row),
      (OrdersEnricher.join_promotion_data odf pdf = .ok out →
        row ∈ odf.rows →
        (∀ pr ∈ pdf.rows, Cell.keyEq (row.getCell "promotion_id")
          (pr.getCell "promotion_id") = false) →
        (row ++ (["promotion_type", "discount_value", "start_date",
            "end_date", "is_active"].map (fun c => (c, Cell.null)))) ∈
          out.rows ∧
        (∀ c ∈ ["promotion_type", "discount_value", "start_date",
            "end_date", "is_active"], row.lookup c = none →
          (row ++ (["promotion_type", "discount_value", "start_date",
            "end_date", "is_active"].map
              (fun c => (c, Cell.null)))).getCell c = Cell.null)) ∧
      (ReviewsEnricher.join_customers rdf cdf = .ok out2 →
        row ∈ rdf.rows →
        (∀ cu ∈ cdf.rows, Cell.keyEq (row.getCell "customer_id")
          (cu.getCell "customer_id") = false) →
        (row ++ (["segment", "city", "country"].map
          (fun c => (c, Cell.null)))) ∈ out2.rows ∧
        (∀ c ∈ ["segment", "city", "country"], row.lookup c = none →
          (row ++ (["segment", "city", "country"].map
            (fun c => (c, Cell.null)))).getCell c = Cell.null)) := by
  intro odf pdf rdf cdf out out2 row
  constructor
  · intro hok hrow hnomatch
    unfold OrdersEnricher.join_promotion_data Frame.selectE at hok
    cases hfind : (["promotion_id", "promotion_type", "discount_value",
        "start_date", "end_date", "is_active"].find?
      (fun c => !pdf.cols.contains c)) with
    | some c => rw [hfind] at hok; exact absurd hok (by simp)
    | none =>
      rw [hfind] at hok
      have hout : out = leftMerge odf (pdf.select ["promotion_id",
          "promotion_type", "discount_value", "start_date", "end_date",
          "is_active"]) "promotion_id" := by
        simpa using hok.symm
      subst hout
      have hnomatch2 : ∀ b ∈ (pdf.select ["promotion_id", "promotion_type",
          "discount_value", "start_date", "end_date", "is_active"]).rows,
          Cell.keyEq (row.getCell "promotion_id")
            (b.getCell "promotion_id") = false := by
        intro b hb
        simp only [Frame.select, List.mem_map] at hb
        obtain ⟨pr, hpr, hb⟩ := hb
        subst hb
        rw [Frame.getCell_selectRow pr (by simp)]
        exact hnomatch pr hpr
      have hmem := @leftMerge_unmatched _ _ "promotion_id" _ hrow hnomatch2
      constructor
      · exact hmem
      · intro c hc hnone
        unfold Row.getCell
        rw [lookup_append_left_none hnone, lookup_null_pad hc]
        rfl
  · intro hok hrow hnomatch
    unfold ReviewsEnricher.join_customers at hok
    cases hreq : SchemaValidator.validate_required_columns cdf
        ["customer_id"] with
    | error e => rw [hreq] at hok; exact absurd hok (by simp [Bind.bind, Except.bind])
    | ok u =>
      rw [hreq] at hok
      unfold Frame.selectE at hok
      cases hfind : (["customer_id", "segment", "city", "country"].find?
        (fun c => !cdf.cols.contains c)) with
      | some c =>
        rw [hfind] at hok
        exact absurd hok (by simp [Bind.bind, Except.bind])
      | none =>
        rw [hfind] at hok
        have hout : out2 = leftMerge rdf (cdf.select ["customer_id",
            "segment", "city", "country"]) "customer_id" := by
          cases u
          simpa [Bind.bind, Except.bind, pure, Except.pure] using hok.symm
        subst hout
        have hnomatch2 : ∀ b ∈ (cdf.select ["customer_id", "segment",
            "city", "country"]).rows,
            Cell.keyEq (row.getCell "customer_id")
              (b.getCell "customer_id") = false := by
          intro b hb
          simp only [Frame.select, List.mem_map] at hb
          obtain ⟨cu, hcu, hb⟩ := hb
          subst hb
          rw [Frame.getCell_selectRow cu (by simp)]
          exact hnomatch cu hcu
        have hmem := @leftMerge_unmatched _ _ "customer_id" _ hrow hnomatch2
        constructor
        · exact hmem
        · intro c hc hnone
          unfold Row.getCell
          rw [lookup_append_left_none hnone, lookup_null_pad hc]
          rfl

/-- An orders table whose single row carries promotion_id 999, matching no
promotion in the catalog. -/
def ordersPromoX : Frame :=
  Frame.mk ["order_id", "promotion_id"]
    [[("order_id", Cell.int 1), ("promotion_id", Cell.int 999)]]

/-- A promotions catalog holding only promotion 100. -/
def promosX : Frame :=
  Frame.mk ["promotion_id", "promotion_type", "discount_value",
    "start_date", "end_date", "is_active"]
    [[("promotion_id", Cell.int 100), ("promotion_type", Cell.str "coupon"),
      ("discount_value", Cell.int 10), ("start_date", Cell.null),
      ("end_date", Cell.null), ("is_active", Cell.bool true)]]

/-- A reviews table whose single row carries customer_id 5, matching no
customer in the catalog. -/
def reviewsCustX : Frame :=
  Frame.mk ["review_id", "customer_id"]
    [[("review_id", Cell.int 1), ("customer_id", Cell.int 5)]]

/-- A customers catalog holding only customer 1. -/
def custCatX : Frame :=
  Frame.mk ["customer_id", "segment", "city", "country"]
    [[("customer_id", Cell.int 1), ("segment", Cell.str "vip"),
      ("city", Cell.str "CityA"), ("country", Cell.str "CountryA")]]

/-- Witness for C5: the unmatched order row survives the promotion join
with promotion_type null, and the unmatched review row survives the
customer join with segment null. -/
theorem left_join_keeps_unmatched_witness :
    (OrdersEnricher.join_promotion_data ordersPromoX promosX =
      .ok ((OrdersEnricher.join_promotion_data ordersPromoX
        promosX).toOption.getD (Frame.mk [] [])) ∧
     ([("order_id", Cell.int 1), ("promotion_id", Cell.int 999)] ++
       (["promotion_type", "discount_value", "start_date", "end_date",
         "is_active"].map (fun c => (c, Cell.null)))) ∈
       ((OrdersEnricher.join_promotion_data ordersPromoX
         promosX).toOption.getD (Frame.mk [] [])).rows ∧
     Row.getCell ([("order_id", Cell.int 1),
       ("promotion_id", Cell.int 999)] ++
       (["promotion_type", "discount_value", "start_date", "end_date",
         "is_active"].map (fun c => (c, Cell.null))))
       "promotion_type" = Cell.null) ∧
    (([("review_id", Cell.int 1), ("customer_id", Cell.int 5)] ++
       (["segment", "city", "country"].map (fun c => (c, Cell.null)))) ∈
       ((ReviewsEnricher.join_customers reviewsCustX
         custCatX).toOption.getD (Frame.mk [] [])).rows ∧
     Row.getCell ([("review_id", Cell.int 1),
       ("customer_id", Cell.int 5)] ++
       (["segment", "city", "country"].map
         (fun c => (c, Cell.null)))) "segment" = Cell.null) :=
  ⟨⟨rfl,
    ((left_join_keeps_unmatched ordersPromoX promosX (Frame.mk [] [])
      (Frame.mk [] []) _ (Frame.mk [] [])
      [("order_id", Cell.int 1), ("promotion_id", Cell.int 999)]).1
      rfl (by decide) (by decide)).1,
    ((left_join_keeps_unmatched ordersPromoX promosX (Frame.mk [] [])
      (Frame.mk [] []) ((OrdersEnricher.join_promotion_data ordersPromoX
        promosX).toOption.getD (Frame.mk [] [])) (Frame.mk [] [])
      [("order_id", Cell.int 1), ("promotion_id", Cell.int 999)]).1
      rfl (by decide) (by decide)).2 "promotion_type" (by decide)
      (by decide)⟩,
   ⟨((left_join_keeps_unmatched (Frame.mk [] []) (Frame.mk [] [])
      reviewsCustX custCatX (Frame.mk [] []) _
      [("review_id", Cell.int 1), ("customer_id", Cell.int 5)]).2
      rfl (by decide) (by decide)).1,
    ((left_join_keeps_unmatched (Frame.mk [] []) (Frame.mk [] [])
      reviewsCustX custCatX (Frame.mk [] [])
      ((ReviewsEnricher.join_customers reviewsCustX
        custCatX).toOption.getD (Frame.mk [] []))
      [("review_id", Cell.int 1), ("customer_id", Cell.int 5)]).2
      rfl (by decide) (by decide)).2 "segment" (by decide) (by decide)⟩⟩

/-! ## rating_by_product ranking (claim C8) -/

theorem ratingSortLE_iff (a b : ReviewAnalyticsAggregator.ProductRatingRow) :
    ReviewAnalyticsAggregator.ratingSortLE a b = true ↔
      (match a.average_rating, b.average_rating with
       | some x, some y => y < x ∨ (x = y ∧ b.review_count ≤ a.review_count)
       | some _, none => True
       | none, some _ => False
       | none, none => True) := by
  unfold ReviewAnalyticsAggregator.ratingSortLE
  cases a.average_rating <;> cases b.average_rating <;> simp

theorem ratingSortLE_total
    (a b : ReviewAnalyticsAggregator.ProductRatingRow) :
    ReviewAnalyticsAggregator.ratingSortLE a b = true ∨
      ReviewAnalyticsAggregator.ratingSortLE b a = true := by
  rw [ratingSortLE_iff, ratingSortLE_iff]
  cases ha : a.average_rating with
  | none =>
    cases hb : b.average_rating with
    | none => left; trivial
    | some y => right; trivial
  | some x =>
    cases hb : b.average_rating with
    | none => left; trivial
    | some y =>
      rcases lt_trichotomy x y with h | h | h
      · right
        exact Or.inl h
      · subst h
        rcases Nat.le_total b.review_count a.review_count with hn | hn
        · left
          exact Or.inr ⟨rfl, hn⟩
        · right
          exact Or.inr ⟨rfl, hn⟩
      · left
        exact Or.inl h

theorem ratingSortLE_trans
    (a b c : ReviewAnalyticsAggregator.ProductRatingRow) :
    ReviewAnalyticsAggregator.ratingSortLE a b = true →
    ReviewAnalyticsAggregator.ratingSortLE b c = true →
    ReviewAnalyticsAggregator.ratingSortLE a c = true := by
  rw [ratingSortLE_iff, ratingSortLE_iff, ratingSortLE_iff]
  cases ha : a.average_rating with
  | none =>
    cases hb : b.average_rating with
    | none =>
      cases hc : c.average_rating with
      | none => intro _ _; trivial
      | some z => intro _ h2; exact absurd h2 (by simp)
    | some y => intro h1 _; exact absurd h1 (by simp)
  | some x =>
    cases hb : b.average_rating with
    | none =>
      cases hc : c.average_rating with
      | none => intro _ _; trivial
      | some z => intro _ h2; exact absurd h2 (by simp)
    | some y =>
      cases hc : c.average_rating with
      | none => intro _ _; trivial
      | some z =>
        intro h1 h2
        rcases h1 with h1 | ⟨hxy, hba⟩
        · rcases h2 with h2 | ⟨hyz, hcb⟩
          · exact Or.inl (lt_trans h2 h1)
          · subst hyz
            exact Or.inl h1
        · subst hxy
          rcases h2 with h2 | ⟨hyz, hcb⟩
          · exact Or.inl h2
          · subst hyz
            exact Or.inr ⟨rfl, le_trans hcb hba⟩

instance : IsTotal ReviewAnalyticsAggregator.ProductRatingRow
    (fun a b => ReviewAnalyticsAggregator.ratingSortLE a b = true) :=
  ⟨ratingSortLE_total⟩

instance : IsTrans ReviewAnalyticsAggregator.ProductRatingRow
    (fun a b => ReviewAnalyticsAggregator.ratingSortLE a b = true) :=
  ⟨ratingSortLE_trans⟩

/-- C8: every product in the rating_by_product output has at least
min_reviews reviews, the output has at most top_n rows, and consecutive
rows are ordered by average rating descending with review count descending
as tie-break (products with NaN rating sort last). -/
theorem rating_by_product_spec :
    ∀ (df : Frame) (min_reviews top_n : Nat)
      (out : List ReviewAnalyticsAggregator.ProductRatingRow),
      ReviewAnalyticsAggregator.rating_by_product df min_reviews top_n =
        .ok out →
      (∀ p ∈ out, min_reviews ≤ p.review_count) ∧
      out.length ≤ top_n ∧
      out.Pairwise (fun a b =>
        (∃ x y, a.average_rating = some x ∧ b.average_rating = some y ∧
          (y < x ∨ (x = y ∧ b.review_count ≤ a.review_count))) ∨
        b.average_rating = none) := by
  intro df min_reviews top_n out hok
  unfold ReviewAnalyticsAggregator.rating_by_product at hok
  split at hok
  · exact absurd hok (by simp)
  split at hok
  · exact absurd hok (by simp)
  split at hok
  · exact absurd hok (by simp)
  split at hok
  · exact absurd hok (by simp)
  split at hok
  · exact absurd hok (by simp)
  rw [Except.ok.injEq] at hok
  subst hok
  refine ⟨?_, ?_, ?_⟩
  · intro p hp
    have hp2 := List.mem_of_mem_take hp
    have hp3 := (List.perm_insertionSort
      (fun a b => ReviewAnalyticsAggregator.ratingSortLE a b = true)
      _).mem_iff.mp hp2
    have hp4 := List.mem_filter.mp hp3
    exact of_decide_eq_true hp4.2
  · exact List.length_take_le _ _
  · refine (List.Pairwise.sublist (List.take_sublist top_n _)
      (List.sorted_insertionSort
        (fun a b => ReviewAnalyticsAggregator.ratingSortLE a b = true)
        _)).imp ?_
    intro a b hab
    rw [ratingSortLE_iff] at hab
    cases ha : a.average_rating with
    | none =>
      cases hb : b.average_rating with
      | none => exact Or.inr rfl
      | some y => rw [ha, hb] at hab; exact absurd hab (by simp)
    | some x =>
      cases hb : b.average_rating with
      | none => exact Or.inr rfl
      | some y =>
        rw [ha, hb] at hab
        exact Or.inl ⟨x, y, rfl, rfl, hab⟩

/-- Enriched reviews: product 10 has three reviews (ratings 4, 5, 4) and
product 11 has a single 5-star review - the highest average. -/
def reviewsRatedX : Frame :=
  Frame.mk ["review_id", "product_id", "product_name", "rating",
    "is_positive"]
    [[("review_id", Cell.int 1), ("product_id", Cell.int 10),
      ("product_name", Cell.str "Gadget"), ("rating", Cell.int 4),
      ("is_positive", Cell.bool true)],
     [("review_id", Cell.int 2), ("product_id", Cell.int 10),
      ("product_name", Cell.str "Gadget"), ("rating", Cell.int 5),
      ("is_positive", Cell.bool true)],
     [("review_id", Cell.int 3), ("product_id", Cell.int 10),
      ("product_name", Cell.str "Gadget"), ("rating", Cell.int 4),
      ("is_positive", Cell.bool true)],
     [("review_id", Cell.int 4), ("product_id", Cell.int 11),
      ("product_name", Cell.str "Widget"), ("rating", Cell.int 5),
      ("is_positive", Cell.bool true)]]

/-- Witness for C8: with min_reviews = 3, product 11 (one review, average
5, the highest) is excluded; every returned product has at least 3
reviews, at most top_n rows come back, and the output is the single
product 10. -/
theorem rating_by_product_spec_witness :
    ReviewAnalyticsAggregator.rating_by_product reviewsRatedX 3 20 =
      .ok ((ReviewAnalyticsAggregator.rating_by_product
        reviewsRatedX 3 20).toOption.getD []) ∧
    (∀ p ∈ (ReviewAnalyticsAggregator.rating_by_product
        reviewsRatedX 3 20).toOption.getD [], 3 ≤ p.review_count) ∧
    ((ReviewAnalyticsAggregator.rating_by_product
        reviewsRatedX 3 20).toOption.getD []).length ≤ 20 ∧
    (∀ p ∈ (ReviewAnalyticsAggregator.rating_by_product
        reviewsRatedX 3 20).toOption.getD [], p.product_id ≠ Cell.int 11) :=
  ⟨rfl,
   (rating_by_product_spec reviewsRatedX 3 20 _ rfl).1,
   (rating_by_product_spec reviewsRatedX 3 20 _ rfl).2.1,
   by decide⟩

/-! ## Enrichment preserves the cleaned row count (claim C1) -/

theorem Cell.keyEq_imp_eqv {a b : Cell} (h : Cell.keyEq a b = true) :
    Cell.eqv a b = true := by
  cases a <;> cases b <;>
    simp_all [Cell.keyEq, Cell.eqv, Cell.toRat?, Cell.isNull]

theorem pairwiseNoMatch_iff (eq : Cell → Cell → Bool) (key : String) :
    ∀ rows : List Row, pairwiseNoMatch eq key rows = true ↔
      rows.Pairwise (fun r s => eq (r.getCell key) (s.getCell key) = false) := by
  intro rows
  induction rows with
  | nil => simp [pairwiseNoMatch]
  | cons r rest ih =>
    simp only [pairwiseNoMatch, Bool.and_eq_true, List.all_eq_true,
      List.pairwise_cons, ih]
    constructor
    · rintro ⟨h1, h2⟩
      exact ⟨fun s hs => by simpa using h1 s hs, h2⟩
    · rintro ⟨h1, h2⟩
      exact ⟨fun s hs => by simpa using h1 s hs, h2⟩

theorem filter_keyEq_len_le_one {key : String} {rows : List Row}
    (h : rows.Pairwise
      (fun r s => Cell.keyEq (r.getCell key) (s.getCell key) = false))
    (k : Cell) :
    (rows.filter (fun b => Cell.keyEq k (b.getCell key))).length ≤ 1 := by
  induction rows with
  | nil => simp
  | cons b rest ih =>
    rcases List.pairwise_cons.mp h with ⟨hb, hrest⟩
    by_cases hk : Cell.keyEq k (b.getCell key) = true
    · have hempty : rest.filter
          (fun s => Cell.keyEq k (s.getCell key)) = [] := by
        rw [List.filter_eq_nil_iff]
        intro s hs hks
        have : Cell.keyEq (b.getCell key) (s.getCell key) = true :=
          Cell.keyEq_euclid hk (by simpa using hks)
        rw [hb s hs] at this
        exact absurd this (by simp)
      have hfil : (b :: rest).filter
          (fun s => Cell.keyEq k (s.getCell key)) =
          b :: rest.filter (fun s => Cell.keyEq k (s.getCell key)) := by
        simp [List.filter_cons, hk]
      rw [hfil, hempty]
      simp
    · have hfil : (b :: rest).filter
          (fun s => Cell.keyEq k (s.getCell key)) =
          rest.filter (fun s => Cell.keyEq k (s.getCell key)) := by
        simp [List.filter_cons, hk]
      rw [hfil]
      exact ih hrest

theorem leftMerge_length {l r : Frame} {key : String}
    (h : r.rows.Pairwise
      (fun a b => Cell.keyEq (a.getCell key) (b.getCell key) = false)) :
    (leftMerge l r key).rows.length = l.rows.length := by
  unfold leftMerge
  simp only
  induction l.rows with
  | nil => simp
  | cons a rest ih =>
    rw [List.flatMap_cons, List.length_append, ih, List.length_cons]
    have hle := filter_keyEq_len_le_one h (a.getCell key)
    cases hfil : r.rows.filter
        (fun b => Cell.keyEq (a.getCell key) (b.getCell key)) with
    | nil =>
      simp
      omega
    | cons m ms =>
      rw [hfil] at hle
      simp only [List.length_cons] at hle
      have hms : ms = [] := by
        cases ms with
        | nil => rfl
        | cons x xs => simp at hle
      subst hms
      simp
      omega

theorem pairwise_keys_map {key : String} {rows : List Row}
    {g : Row → Row} (hg : ∀ r, (g r).getCell key = r.getCell key)
    (h : rows.Pairwise
      (fun a b => Cell.keyEq (a.getCell key) (b.getCell key) = false)) :
    (rows.map g).Pairwise
      (fun a b => Cell.keyEq (a.getCell key) (b.getCell key) = false) := by
  rw [List.pairwise_map]
  refine h.imp ?_
  intro a b hab
  rw [hg a, hg b]
  exact hab

theorem pairwise_keys_mapCol {f : Frame} {c key : String} {g : Cell → Cell}
    (hne : c ≠ key)
    (h : f.rows.Pairwise
      (fun a b => Cell.keyEq (a.getCell key) (b.getCell key) = false)) :
    (f.mapCol c g).rows.Pairwise
      (fun a b => Cell.keyEq (a.getCell key) (b.getCell key) = false) := by
  unfold Frame.mapCol Frame.setColByRow
  simp only
  exact pairwise_keys_map
    (fun r => Row.getCell_setCell_ne r _ hne) h

theorem pairwise_keys_select {f : Frame} {cs : List String} {key : String}
    (hmem : key ∈ cs)
    (h : f.rows.Pairwise
      (fun a b => Cell.keyEq (a.getCell key) (b.getCell key) = false)) :
    (f.select cs).rows.Pairwise
      (fun a b => Cell.keyEq (a.getCell key) (b.getCell key) = false) := by
  unfold Frame.select
  simp only
  exact pairwise_keys_map
    (fun r => Frame.getCell_selectRow r hmem) h

theorem dedupKeysAux_not_seen :
    ∀ (l seen : List Cell) (x : Cell), x ∈ dedupKeysAux l seen →
      ∀ s ∈ seen, Cell.eqv s x = false := by
  intro l
  induction l with
  | nil => intro seen x hx; simp [dedupKeysAux] at hx
  | cons c rest ih =>
    intro seen x hx s hs
    unfold dedupKeysAux at hx
    by_cases hc : seen.any (fun d => Cell.eqv d c) = true
    · rw [if_pos hc] at hx
      exact ih seen x hx s hs
    · rw [if_neg hc] at hx
      rcases List.mem_cons.mp hx with hx | hx
      · subst hx
        by_cases he : Cell.eqv s x = true
        · exact absurd (List.any_eq_true.mpr ⟨s, hs, he⟩) hc
        · simpa using he
      · exact ih (c :: seen) x hx s (List.mem_cons_of_mem c hs)

theorem dedupKeysAux_pairwise :
    ∀ (l seen : List Cell),
      (dedupKeysAux l seen).Pairwise (fun a b => Cell.eqv a b = false) := by
  intro l
  induction l with
  | nil => intro seen; simp [dedupKeysAux]
  | cons c rest ih =>
    intro seen
    unfold dedupKeysAux
    by_cases hc : seen.any (fun d => Cell.eqv d c) = true
    · rw [if_pos hc]
      exact ih seen
    · rw [if_neg hc]
      rw [List.pairwise_cons]
      refine ⟨?_, ih (c :: seen)⟩
      intro b hb
      exact dedupKeysAux_not_seen rest (c :: seen) b hb c
        (List.mem_cons_self c (seen))

theorem groupItemsCount_pairwise (items : Frame) :
    (OrdersEnricher.groupItemsCount items).rows.Pairwise
      (fun a b => Cell.keyEq (a.getCell "order_id")
        (b.getCell "order_id") = false) := by
  unfold OrdersEnricher.groupItemsCount
  simp only
  rw [List.pairwise_map]
  have hpair := dedupKeysAux_pairwise
    ((items.colCells "order_id").filter (fun c => !c.isNull)) []
  unfold dedupKeys
  refine hpair.imp ?_
  intro a b hab
  have hga : Row.getCell [("order_id", a), ("items_count",
      Cell.rat (sumQ ((items.rows.filter
        (fun r => Cell.eqv (r.getCell "order_id") a)).map
        (fun r => r.getCell "quantity"))))] "order_id" = a := rfl
  have hgb : Row.getCell [("order_id", b), ("items_count",
      Cell.rat (sumQ ((items.rows.filter
        (fun r => Cell.eqv (r.getCell "order_id") b)).map
        (fun r => r.getCell "quantity"))))] "order_id" = b := rfl
  rw [hga, hgb]
  by_cases hk : Cell.keyEq a b = true
  · rw [Cell.keyEq_imp_eqv hk] at hab
    exact absurd hab (by simp)
  · simpa using hk

theorem bind_ok {α β : Type} {e : Except PdError α}
    {k : α → Except PdError β} {v : β}
    (h : (e >>= k) = .ok v) : ∃ w, e = .ok w ∧ k w = .ok v := by
  cases e with
  | error err => simp [Bind.bind, Except.bind] at h
  | ok w => exact ⟨w, rfl, by simpa [Bind.bind, Except.bind] using h⟩

theorem bind_unit_ok {α : Type} {e : Except PdError Unit}
    {k : Unit → Except PdError α} {v : α}
    (h : (e >>= k) = .ok v) : k () = .ok v := by
  obtain ⟨w, _, hk⟩ := bind_ok h
  cases w
  exact hk

theorem mapColE_ok {f : Frame} {c : String} {g : Cell → Cell} {out : Frame}
    (h : f.mapColE c g = .ok out) : out = f.mapCol c g := by
  unfold Frame.mapColE at h
  split at h
  · simpa using h.symm
  · exact absurd h (by simp)

theorem selectE_ok {f : Frame} {cs : List String} {out : Frame}
    (h : f.selectE cs = .ok out) : out = f.select cs := by
  unfold Frame.selectE at h
  split at h
  · exact absurd h (by simp)
  · simpa using h.symm

theorem setColFromE_ok {f : Frame} {dst src : String} {g : Cell → Cell}
    {out : Frame} (h : f.setColFromE dst src g = .ok out) :
    out = f.setColByRow dst (fun r => g (r.getCell src)) := by
  unfold Frame.setColFromE at h
  split at h
  · simpa using h.symm
  · exact absurd h (by simp)

theorem setColByRow_length (f : Frame) (c : String) (g : Row → Cell) :
    (f.setColByRow c g).rows.length = f.rows.length := by
  simp [Frame.setColByRow]

theorem mapCol_length (f : Frame) (c : String) (g : Cell → Cell) :
    (f.mapCol c g).rows.length = f.rows.length := by
  simp [Frame.mapCol, Frame.setColByRow]

theorem select_length (f : Frame) (cs : List String) :
    (f.select cs).rows.length = f.rows.length := by
  simp [Frame.select]

theorem validate_customers_ok_shape {c c1 : Frame}
    (h : OrdersEnricher.validate_customers c = .ok c1) :
    c1 = c.mapCol "registration_date" Cell.toDatetime := by
  unfold OrdersEnricher.validate_customers at h
  exact mapColE_ok (bind_unit_ok (bind_unit_ok h))

theorem validate_promotions_ok_shape {p p1 : Frame}
    (h : OrdersEnricher.validate_promotions p = .ok p1) :
    p1 = (p.mapCol "start_date" Cell.toDatetime).mapCol
      "end_date" Cell.toDatetime := by
  unfold OrdersEnricher.validate_promotions at h
  have h1 := bind_unit_ok (bind_unit_ok (bind_unit_ok h))
  obtain ⟨w, hw, hk⟩ := bind_ok h1
  rw [mapColE_ok hw] at hk
  exact mapColE_ok hk

theorem validate_order_items_ok_shape {i i1 : Frame}
    (h : OrdersEnricher.validate_order_items i = .ok i1) :
    i1 = ((i.mapCol "quantity" Cell.toNumeric).mapCol "unit_price"
      Cell.toNumeric).mapCol "subtotal" Cell.toNumeric := by
  unfold OrdersEnricher.validate_order_items at h
  have h1 := bind_unit_ok (bind_unit_ok h)
  obtain ⟨w, hw, hk⟩ := bind_ok h1
  rw [mapColE_ok hw] at hk
  obtain ⟨w2, hw2, hk2⟩ := bind_ok hk
  rw [mapColE_ok hw2] at hk2
  exact mapColE_ok hk2

theorem join_customer_data_ok_shape {odf cdf out : Frame}
    (h : OrdersEnricher.join_customer_data odf cdf = .ok out) :
    out = leftMerge odf (cdf.select ["customer_id", "segment",
      "registration_date", "city", "country", "email"]) "customer_id" := by
  unfold OrdersEnricher.join_customer_data at h
  obtain ⟨sel, hsel, hk⟩ := bind_ok h
  rw [selectE_ok hsel] at hk
  simpa [pure, Except.pure] using hk.symm

theorem join_promotion_data_ok_shape {odf pdf out : Frame}
    (h : OrdersEnricher.join_promotion_data odf pdf = .ok out) :
    out = leftMerge odf (pdf.select ["promotion_id", "promotion_type",
      "discount_value", "start_date", "end_date", "is_active"])
      "promotion_id" := by
  unfold OrdersEnricher.join_promotion_data at h
  obtain ⟨sel, hsel, hk⟩ := bind_ok h
  rw [selectE_ok hsel] at hk
  simpa [pure, Except.pure] using hk.symm

theorem join_products_ok_shape {rdf pdf out : Frame}
    (h : ReviewsEnricher.join_products rdf pdf = .ok out) :
    out = leftMerge rdf (pdf.select ["product_id", "product_name",
      "category_id", "brand_id"]) "product_id" := by
  unfold ReviewsEnricher.join_products at h
  have h1 := bind_unit_ok (bind_unit_ok h)
  obtain ⟨sel, hsel, hk⟩ := bind_ok h1
  rw [selectE_ok hsel] at hk
  simpa [pure, Except.pure] using hk.symm

theorem join_customers_ok_shape {rdf cdf out : Frame}
    (h : ReviewsEnricher.join_customers rdf cdf = .ok out) :
    out = leftMerge rdf (cdf.select ["customer_id", "segment", "city",
      "country"]) "customer_id" := by
  unfold ReviewsEnricher.join_customers at h
  have h1 := bind_unit_ok h
  obtain ⟨sel, hsel, hk⟩ := bind_ok h1
  rw [selectE_ok hsel] at hk
  simpa [pure, Except.pure] using hk.symm

theorem calculate_length (f items : Frame) :
    (OrdersEnricher.calculate_order_products_count_and_average_price
      f items).rows.length = f.rows.length := by
  unfold OrdersEnricher.calculate_order_products_count_and_average_price
  rw [mapCol_length, setColByRow_length]
  exact leftMerge_length (groupItemsCount_pairwise items)

theorem add_derived_orders_length {f out : Frame}
    (h : OrdersEnricher.add_derived_columns f = .ok out) :
    out.rows.length = f.rows.length := by
  unfold OrdersEnricher.add_derived_columns at h
  obtain ⟨w1, hw1, h⟩ := bind_ok h
  obtain ⟨w2, hw2, h⟩ := bind_ok h
  obtain ⟨w3, hw3, h⟩ := bind_ok h
  obtain ⟨w4, hw4, h⟩ := bind_ok h
  rw [setColFromE_ok h, setColFromE_ok hw4, setColFromE_ok hw3,
    setColFromE_ok hw2, setColFromE_ok hw1]
  simp [setColByRow_length]

theorem add_derived_reviews_length {f out : Frame}
    (h : ReviewsEnricher.add_derived_columns f = .ok out) :
    out.rows.length = f.rows.length := by
  unfold ReviewsEnricher.add_derived_columns at h
  obtain ⟨w1, hw1, h⟩ := bind_ok h
  obtain ⟨w2, hw2, h⟩ := bind_ok h
  obtain ⟨w3, hw3, h⟩ := bind_ok h
  rw [setColFromE_ok h, setColFromE_ok hw3, setColFromE_ok hw2,
    setColFromE_ok hw1]
  simp [setColByRow_length]

/-- C1: when the reference catalogs are unique on their join keys
(many-to-one precondition) and enrichment succeeds, the enriched table has
exactly as many rows as the cleaned primary table, for both the orders and
the reviews enrichment pipelines. -/
theorem enrich_preserves_cleaned_rowcount :
    ∀ (o c p i rv pr cu out co rout rco : Frame),
      (pairwiseNoMatch Cell.keyEq "customer_id" c.rows = true →
       pairwiseNoMatch Cell.keyEq "promotion_id" p.rows = true →
       OrdersEnricher.enrich o c p i = .ok out →
       OrdersCleaner.clean o = .ok co →
       out.rows.length = co.rows.length) ∧
      (pairwiseNoMatch Cell.keyEq "product_id" pr.rows = true →
       pairwiseNoMatch Cell.keyEq "customer_id" cu.rows = true →
       ReviewsEnricher.enrich rv pr cu = .ok rout →
       ReviewsCleaner.clean rv = .ok rco →
       rout.rows.length = rco.rows.length) := by
  intro o c p i rv pr cu out co rout rco
  constructor
  · intro huC huP he hcl
    unfold OrdersEnricher.enrich at he
    obtain ⟨w0, hw0, he⟩ := bind_ok he
    rw [hcl] at hw0
    have hco : w0.rows.length = co.rows.length := by
      have : w0 = co := by simpa using hw0.symm
      rw [this]
    obtain ⟨c1, hc1, he⟩ := bind_ok he
    obtain ⟨i1, hi1, he⟩ := bind_ok he
    obtain ⟨p1, hp1, he⟩ := bind_ok he
    obtain ⟨e1, he1, he⟩ := bind_ok he
    obtain ⟨e2, he2, he⟩ := bind_ok he
    have hlen_out := add_derived_orders_length he
    rw [calculate_length] at hlen_out
    have hpairP : (p1.select ["promotion_id", "promotion_type",
        "discount_value", "start_date", "end_date",
        "is_active"]).rows.Pairwise (fun a b =>
          Cell.keyEq (a.getCell "promotion_id")
            (b.getCell "promotion_id") = false) := by
      rw [validate_promotions_ok_shape hp1]
      refine pairwise_keys_select (by simp) ?_
      refine pairwise_keys_mapCol (by decide) ?_
      refine pairwise_keys_mapCol (by decide) ?_
      exact (pairwiseNoMatch_iff _ _ _).mp huP
    have hlen2 : e2.rows.length = e1.rows.length := by
      rw [join_promotion_data_ok_shape he2]
      exact leftMerge_length hpairP
    have hpairC : (c1.select ["customer_id", "segment",
        "registration_date", "city", "country", "email"]).rows.Pairwise
        (fun a b => Cell.keyEq (a.getCell "customer_id")
          (b.getCell "customer_id") = false) := by
      rw [validate_customers_ok_shape hc1]
      refine pairwise_keys_select (by simp) ?_
      refine pairwise_keys_mapCol (by decide) ?_
      exact (pairwiseNoMatch_iff _ _ _).mp huC
    have hlen1 : e1.rows.length = w0.rows.length := by
      rw [join_customer_data_ok_shape he1]
      exact leftMerge_length hpairC
    omega
  · intro huPr huCu he hcl
    unfold ReviewsEnricher.enrich at he
    obtain ⟨w0, hw0, he⟩ := bind_ok he
    rw [hcl] at hw0
    have hco : w0.rows.length = rco.rows.length := by
      have : w0 = rco := by simpa using hw0.symm
      rw [this]
    obtain ⟨e1, he1, he⟩ := bind_ok he
    obtain ⟨e2, he2, he⟩ := bind_ok he
    have hlen_out := add_derived_reviews_length he
    have hpairCu : (cu.select ["customer_id", "segment", "city",
        "country"]).rows.Pairwise (fun a b =>
          Cell.keyEq (a.getCell "customer_id")
            (b.getCell "customer_id") = false) := by
      refine pairwise_keys_select (by simp) ?_
      exact (pairwiseNoMatch_iff _ _ _).mp huCu
    have hlen2 : e2.rows.length = e1.rows.length := by
      rw [join_customers_ok_shape he2]
      exact leftMerge_length hpairCu
    have hpairPr : (pr.select ["product_id", "product_name",
        "category_id", "brand_id"]).rows.Pairwise (fun a b =>
          Cell.keyEq (a.getCell "product_id")
            (b.getCell "product_id") = false) := by
      refine pairwise_keys_select (by simp) ?_
      exact (pairwiseNoMatch_iff _ _ _).mp huPr
    have hlen1 : e1.rows.length = w0.rows.length := by
      rw [join_products_ok_shape he1]
      exact leftMerge_length hpairPr
    omega

/-- A two-row raw orders table (spec Scenario A plus a promotion-less
cancelled order). -/
def ordersX : Frame :=
  Frame.mk ["order_id", "customer_id", "promotion_id", "total_amount",
    "shipping_cost", "discount_percent", "status", "order_date"]
    [[("order_id", Cell.int 1), ("customer_id", Cell.int 10),
      ("promotion_id", Cell.int 100), ("total_amount", Cell.rat 109),
      ("shipping_cost", Cell.rat 0), ("discount_percent", Cell.rat 10),
      ("status", Cell.str "delivered"),
      ("order_date", Cell.str "2024-01-15")],
     [("order_id", Cell.int 2), ("customer_id", Cell.int 11),
      ("promotion_id", Cell.null), ("total_amount", Cell.rat 50),
      ("shipping_cost", Cell.rat 5), ("discount_percent", Cell.rat 0),
      ("status", Cell.str "CANCELLED"),
      ("order_date", Cell.str "2024-02-03")]]

/-- A customers catalog with one customer (unique customer_id). -/
def customersX : Frame :=
  Frame.mk ["customer_id", "segment", "registration_date", "city",
    "country", "email"]
    [[("customer_id", Cell.int 10), ("segment", Cell.str "vip"),
      ("registration_date", Cell.str "2020-05-01"),
      ("city", Cell.str "CityA"), ("country", Cell.str "CountryA"),
      ("email", Cell.str "vip@example.com")]]

/-- A promotions catalog with one promotion (unique promotion_id). -/
def promotionsX : Frame :=
  Frame.mk ["promotion_id", "promotion_type", "discount_value",
    "is_active", "start_date", "end_date"]
    [[("promotion_id", Cell.int 100), ("promotion_type", Cell.str "coupon"),
      ("discount_value", Cell.int 10), ("is_active", Cell.bool true),
      ("start_date", Cell.str "2024-01-01"),
      ("end_date", Cell.str "2024-03-01")]]

/-- Order items: quantities 1 and 2 for order 1. -/
def orderItemsX : Frame :=
  Frame.mk ["order_id", "product_id", "quantity", "unit_price", "subtotal"]
    [[("order_id", Cell.int 1), ("product_id", Cell.int 7),
      ("quantity", Cell.int 1), ("unit_price", Cell.rat 40),
      ("subtotal", Cell.rat 40)],
     [("order_id", Cell.int 1), ("product_id", Cell.int 8),
      ("quantity", Cell.int 2), ("unit_price", Cell.rat 34),
      ("subtotal", Cell.rat 69)]]

/-- A two-row raw reviews table (spec Scenario B ratings). -/
def reviewsX : Frame :=
  Frame.mk ["review_id", "product_id", "customer_id", "rating",
    "created_at", "helpful_votes", "comment"]
    [[("review_id", Cell.int 1), ("product_id", Cell.int 10),
      ("customer_id", Cell.int 1), ("rating", Cell.int 5),
      ("created_at", Cell.str "2024-03-05"), ("helpful_votes", Cell.int 2),
      ("comment", Cell.str "great")],
     [("review_id", Cell.int 2), ("product_id", Cell.int 11),
      ("customer_id", Cell.int 1), ("rating", Cell.int 2),
      ("created_at", Cell.str "2024-03-06"), ("helpful_votes", Cell.null),
      ("comment", Cell.str "bad")]]

/-- A products catalog with no nulls anywhere (unique product_id). -/
def productsX : Frame :=
  Frame.mk ["product_id", "product_name", "category_id", "brand_id"]
    [[("product_id", Cell.int 10), ("product_name", Cell.str "Gadget"),
      ("category_id", Cell.int 1000), ("brand_id", Cell.int 2000)],
     [("product_id", Cell.int 11), ("product_name", Cell.str "Widget"),
      ("category_id", Cell.int 1001), ("brand_id", Cell.int 2001)]]

/-- A customers catalog for the reviews join (unique customer_id). -/
def reviewCustomersX : Frame :=
  Frame.mk ["customer_id", "segment", "city", "country"]
    [[("customer_id", Cell.int 1), ("segment", Cell.str "vip"),
      ("city", Cell.str "CityA"), ("country", Cell.str "CountryA")]]

/-- Witness for C1: on concrete valid inputs with unique catalog keys,
both enrichments succeed and return exactly as many rows as their cleaned
primary tables (two each). -/
theorem enrich_preserves_cleaned_rowcount_witness :
    pairwiseNoMatch Cell.keyEq "customer_id" customersX.rows = true ∧
    pairwiseNoMatch Cell.keyEq "promotion_id" promotionsX.rows = true ∧
    OrdersEnricher.enrich ordersX customersX promotionsX orderItemsX =
      .ok ((OrdersEnricher.enrich ordersX customersX promotionsX
        orderItemsX).toOption.getD (Frame.mk [] [])) ∧
    OrdersCleaner.clean ordersX =
      .ok ((OrdersCleaner.clean ordersX).toOption.getD (Frame.mk [] [])) ∧
    ((OrdersEnricher.enrich ordersX customersX promotionsX
        orderItemsX).toOption.getD (Frame.mk [] [])).rows.length =
      ((OrdersCleaner.clean ordersX).toOption.getD
        (Frame.mk [] [])).rows.length ∧
    pairwiseNoMatch Cell.keyEq "product_id" productsX.rows = true ∧
    pairwiseNoMatch Cell.keyEq "customer_id" reviewCustomersX.rows = true ∧
    ReviewsEnricher.enrich reviewsX productsX reviewCustomersX =
      .ok ((ReviewsEnricher.enrich reviewsX productsX
        reviewCustomersX).toOption.getD (Frame.mk [] [])) ∧
    ReviewsCleaner.clean reviewsX =
      .ok ((ReviewsCleaner.clean reviewsX).toOption.getD (Frame.mk [] [])) ∧
    ((ReviewsEnricher.enrich reviewsX productsX
        reviewCustomersX).toOption.getD (Frame.mk [] [])).rows.length =
      ((ReviewsCleaner.clean reviewsX).toOption.getD
        (Frame.mk [] [])).rows.length :=
  ⟨by decide, by decide, rfl, rfl,
   (enrich_preserves_cleaned_rowcount ordersX customersX promotionsX
      orderItemsX reviewsX productsX reviewCustomersX _ _
      (Frame.mk [] []) (Frame.mk [] [])).1
     (by decide) (by decide) rfl rfl,
   by decide, by decide, rfl, rfl,
   (enrich_preserves_cleaned_rowcount ordersX customersX promotionsX
      orderItemsX reviewsX productsX reviewCustomersX (Frame.mk [] [])
      (Frame.mk [] []) _ _).2
     (by decide) (by decide) rfl rfl⟩

/-! ## Cleaning is idempotent on schema-conformant tables (claim C6) -/

/-- Is the cell a plain number (already of numeric dtype, fixed by
to_numeric)? -/
def Cell.isNum : Cell → Bool
  | .int _ => true
  | .rat _ => true
  | _ => false

/-- Is the cell a timestamp? -/
def Cell.isDate : Cell → Bool
  | .date _ => true
  | _ => false

/-- Is the cell a timestamp or missing (fixed by to_datetime)? -/
def Cell.isDateOrNull : Cell → Bool
  | .date _ => true
  | .null => true
  | _ => false

/-- A numeric cell at least lo. -/
def Cell.numGE (c : Cell) (lo : ℚ) : Bool :=
  c.isNum && (match c.toRat? with
    | some x => decide (lo ≤ x)
    | none => false)

/-- A numeric cell between lo and hi. -/
def Cell.numBetween (c : Cell) (lo hi : ℚ) : Bool :=
  c.numGE lo && (match c.toRat? with
    | some x => decide (x ≤ hi)
    | none => false)

/-- A well-formed frame: distinct column names and every row binding
exactly the frame's columns in order. -/
def frameWF (df : Frame) : Bool :=
  decide df.cols.Nodup &&
    df.rows.all (fun r => decide (r.map Prod.fst = df.cols))

/-- The inventory schema of the data model: required columns present and
typed, keys never null, stock metrics numeric and non-negative, restock
date a timestamp or null, inventory_id unique. -/
def inventorySchemaOK (df : Frame) : Bool :=
  frameWF df &&
  (["inventory_id", "product_id", "warehouse_id", "quantity",
    "min_stock_level", "max_stock_level", "last_restock_date"].all
    (fun c => df.cols.contains c)) &&
  df.rows.all (fun r =>
    !(r.getCell "inventory_id").isNull &&
    !(r.getCell "product_id").isNull &&
    !(r.getCell "warehouse_id").isNull &&
    (r.getCell "quantity").numGE 0 &&
    (r.getCell "min_stock_level").numGE 0 &&
    (r.getCell "max_stock_level").numGE 0 &&
    (r.getCell "last_restock_date").isDateOrNull) &&
  pairwiseNoMatch Cell.eqv "inventory_id" df.rows

/-- The review schema of the data model: required columns present and
typed, keys and rating and creation date never null, rating in 1..5,
helpful_votes numeric and non-negative, review_id unique. -/
def reviewsSchemaOK (df : Frame) : Bool :=
  frameWF df &&
  (["review_id", "product_id", "customer_id", "rating", "created_at",
    "helpful_votes"].all (fun c => df.cols.contains c)) &&
  df.rows.all (fun r =>
    !(r.getCell "review_id").isNull &&
    !(r.getCell "product_id").isNull &&
    !(r.getCell "customer_id").isNull &&
    (r.getCell "rating").numBetween 1 5 &&
    (r.getCell "helpful_votes").numGE 0 &&
    (r.getCell "created_at").isDate) &&
  pairwiseNoMatch Cell.eqv "review_id" df.rows

theorem lookup_isSome_of_mem_keys {r : Row} {c : String}
    (h : c ∈ r.map Prod.fst) : (r.lookup c).isSome := by
  induction r with
  | nil => simp at h
  | cons p rest ih =>
    obtain ⟨k, w⟩ := p
    by_cases hk : c = k
    · subst hk
      simp [List.lookup]
    · have hne : (c == k) = false := by simpa using hk
      have hmem : c ∈ rest.map Prod.fst := by
        rcases List.mem_cons.mp h with h1 | h1
        · exact absurd h1 hk
        · exact h1
      simpa [List.lookup, hne] using ih hmem

theorem setCell_lookup_self :
    ∀ (r : Row) (c : String) (v : Cell), (r.map Prod.fst).Nodup →
      r.lookup c = some v → r.setCell c v = r := by
  intro r c v hnd hl
  unfold Row.setCell
  rw [if_pos (by simp [hl])]
  induction r with
  | nil => simp [List.lookup] at hl
  | cons p rest ih =>
    obtain ⟨k, w⟩ := p
    simp only [List.map_cons, List.nodup_cons] at hnd
    by_cases hk : k = c
    · subst hk
      simp only [List.lookup, beq_self_eq_true] at hl
      have hv : v = w := by simpa using hl.symm
      subst hv
      have hmap : rest.map (fun p => if p.1 = k then (k, v) else p) = rest := by
        conv_rhs => rw [show rest = rest.map id from (List.map_id rest).symm]
        apply List.map_congr_left
        intro p hp
        have hpk : p.1 ≠ k := by
          intro hpk
          exact hnd.1 (hpk ▸ List.mem_map_of_mem Prod.fst hp)
        simp [hpk]
      simp [hmap]
    · have hne : (c == k) = false := by
        simp only [beq_eq_false_iff_ne]
        exact fun h2 => hk h2.symm
      simp only [List.lookup, hne] at hl
      have := ih hnd.2 hl
      simp only [List.map_cons, if_neg hk]
      rw [this]

theorem setCell_getCell_self {r : Row} {c : String}
    (hnd : (r.map Prod.fst).Nodup) (hs : (r.lookup c).isSome) :
    r.setCell c (r.getCell c) = r := by
  obtain ⟨v, hv⟩ := Option.isSome_iff_exists.mp hs
  have hg : r.getCell c = v := by simp [Row.getCell, hv]
  rw [hg]
  exact setCell_lookup_self r c v hnd hv

theorem mapCol_eq_self {f : Frame} {c : String} {g : Cell → Cell}
    (hwf : frameWF f = true) (hcont : f.cols.contains c = true)
    (hfix : ∀ r ∈ f.rows, g (r.getCell c) = r.getCell c) :
    f.mapCol c g = f := by
  unfold Frame.mapCol Frame.setColByRow
  unfold frameWF at hwf
  simp only [Bool.and_eq_true, List.all_eq_true, decide_eq_true_eq] at hwf
  obtain ⟨hnd, hbind⟩ := hwf
  have hrows : f.rows.map (fun r => r.setCell c (g (r.getCell c))) =
      f.rows := by
    conv_rhs => rw [show f.rows = f.rows.map id from
      (List.map_id f.rows).symm]
    apply List.map_congr_left
    intro r hr
    rw [hfix r hr]
    have hkeys : (r.map Prod.fst).Nodup := by
      rw [hbind r hr]
      exact hnd
    have hsome : (r.lookup c).isSome := by
      apply lookup_isSome_of_mem_keys
      rw [hbind r hr]
      simpa using hcont
    simp [setCell_getCell_self hkeys hsome]
  rw [if_pos hcont, hrows]

theorem dropDupLast_id {key : String} :
    ∀ rows : List Row,
      rows.Pairwise
        (fun a b => Cell.eqv (a.getCell key) (b.getCell key) = false) →
      dropDupLast [key] rows = rows := by
  intro rows h
  induction rows with
  | nil => simp [dropDupLast]
  | cons r rest ih =>
    rcases List.pairwise_cons.mp h with ⟨hr, hrest⟩
    unfold dropDupLast
    rw [if_neg, ih hrest]
    intro hany
    obtain ⟨s, hs, hks⟩ := List.any_eq_true.mp hany
    unfold rowKeyEqv at hks
    simp only [List.all_cons, List.all_nil, Bool.and_true] at hks
    have : Cell.eqv (r.getCell key) (s.getCell key) = true :=
      Cell.eqv_symm hks
    rw [hr s hs] at this
    exact absurd this (by simp)

theorem fillZero_fix {c : Cell} (h : c.isNull = false) :
    Cell.fillZero c = c := by
  cases c <;> simp_all [Cell.fillZero, Cell.isNull]

theorem toNumeric_fix {c : Cell} (h : Cell.isNum c = true) :
    Cell.toNumeric c = c := by
  cases c <;> simp_all [Cell.toNumeric, Cell.isNum]

theorem toDatetime_fix {c : Cell} (h : Cell.isDateOrNull c = true) :
    Cell.toDatetime c = c := by
  cases c <;> simp_all [Cell.toDatetime, Cell.isDateOrNull]

theorem validate_numeric_range_ok {f : Frame} {col : String}
    {lo hi : Option ℚ}
    (h : ∀ cell ∈ f.colCells col, ∀ x, cell.toRat? = some x →
      (∀ l, lo = some l → l ≤ x) ∧ (∀ u, hi = some u → x ≤ u)) :
    SchemaValidator.validate_numeric_range f col lo hi = .ok () := by
  simp only [SchemaValidator.validate_numeric_range]
  split
  · rfl
  · next hcond =>
    exfalso
    have hne := List.isEmpty_eq_false.mp (Bool.of_not_eq_true hcond)
    obtain ⟨cell, hmem⟩ := List.exists_mem_of_ne_nil _ hne
    obtain ⟨hc, hbad⟩ := List.mem_filter.mp hmem
    cases hx : cell.toRat? with
    | none => rw [hx] at hbad; simp at hbad
    | some x =>
      rw [hx] at hbad
      obtain ⟨hlo, hhi⟩ := h cell hc x hx
      simp only [Bool.or_eq_true] at hbad
      rcases hbad with hb | hb
      · cases hl : lo with
        | none =>
          subst hl
          simp at hb
        | some l =>
          subst hl
          simp only [decide_eq_true_eq] at hb
          exact absurd hb (not_lt.mpr (hlo l rfl))
      · cases hu : hi with
        | none =>
          subst hu
          simp at hb
        | some u =>
          subst hu
          simp only [decide_eq_true_eq] at hb
          exact absurd hb (not_lt.mpr (hhi u rfl))

theorem validate_unique_values_ok {f : Frame} {key : String}
    (h : f.rows.Pairwise
      (fun a b => Cell.eqv (a.getCell key) (b.getCell key) = false)) :
    SchemaValidator.validate_unique_values f [key] = .ok () := by
  unfold SchemaValidator.validate_unique_values
  rw [dropDupLast_id f.rows h]
  simp

theorem bind_eq_of_ok {α β : Type} {e : Except PdError α}
    {k : α → Except PdError β} {w : α} (h : e = .ok w) :
    (e >>= k) = k w := by
  rw [h]
  rfl

theorem isNum_not_null {c : Cell} (h : Cell.isNum c = true) :
    c.isNull = false := by
  cases c <;> simp_all [Cell.isNum, Cell.isNull]

theorem isDate_not_null {c : Cell} (h : Cell.isDate c = true) :
    c.isNull = false := by
  cases c <;> simp_all [Cell.isDate, Cell.isNull]

theorem isDate_dateOrNull {c : Cell} (h : Cell.isDate c = true) :
    Cell.isDateOrNull c = true := by
  cases c <;> simp_all [Cell.isDate, Cell.isDateOrNull]

theorem numGE_isNum {c : Cell} {lo : ℚ} (h : Cell.numGE c lo = true) :
    Cell.isNum c = true := by
  unfold Cell.numGE at h
  simp only [Bool.and_eq_true] at h
  exact h.1

theorem numGE_bound {c : Cell} {lo : ℚ} (h : Cell.numGE c lo = true) :
    ∀ x, c.toRat? = some x → lo ≤ x := by
  intro x hx
  unfold Cell.numGE at h
  rw [hx] at h
  simp only [Bool.and_eq_true] at h
  simpa using h.2

theorem numBetween_isNum {c : Cell} {lo hi : ℚ}
    (h : Cell.numBetween c lo hi = true) : Cell.isNum c = true := by
  unfold Cell.numBetween at h
  simp only [Bool.and_eq_true] at h
  exact numGE_isNum h.1

theorem numBetween_bounds {c : Cell} {lo hi : ℚ}
    (h : Cell.numBetween c lo hi = true) :
    ∀ x, c.toRat? = some x → lo ≤ x ∧ x ≤ hi := by
  intro x hx
  unfold Cell.numBetween at h
  simp only [Bool.and_eq_true] at h
  obtain ⟨h1, h2⟩ := h
  rw [hx] at h2
  exact ⟨numGE_bound h1 x hx, by simpa using h2⟩

theorem colHasNull_false {df : Frame} {c : String}
    (h : ∀ r ∈ df.rows, (r.getCell c).isNull = false) :
    df.colHasNull c = false := by
  unfold Frame.colHasNull
  rw [List.any_eq_false]
  intro r hr
  simp [h r hr]

/-- C6 core, inventory: a table already satisfying the inventory schema is
a fixed point of InventoryCleaner.clean. -/
theorem inventory_clean_fixpoint {df : Frame}
    (h : inventorySchemaOK df = true) :
    InventoryCleaner.clean df = .ok df := by
  unfold inventorySchemaOK at h
  simp only [Bool.and_eq_true, List.all_eq_true] at h
  obtain ⟨⟨⟨hwf, hcols⟩, hrows⟩, huniq⟩ := h
  have hrow := fun r hr => hrows r hr
  have hpair := (pairwiseNoMatch_iff Cell.eqv "inventory_id" df.rows).mp huniq
  have hrowp : ∀ r ∈ df.rows,
      (r.getCell "inventory_id").isNull = false ∧
      (r.getCell "product_id").isNull = false ∧
      (r.getCell "warehouse_id").isNull = false ∧
      (r.getCell "quantity").numGE 0 = true ∧
      (r.getCell "min_stock_level").numGE 0 = true ∧
      (r.getCell "max_stock_level").numGE 0 = true ∧
      (r.getCell "last_restock_date").isDateOrNull = true := by
    intro r hr
    have hh := hrow r hr
    simp only [Bool.and_eq_true] at hh
    obtain ⟨⟨⟨⟨⟨⟨h1, h2⟩, h3⟩, h4⟩, h5⟩, h6⟩, h7⟩ := hh
    exact ⟨by simpa using h1, by simpa using h2, by simpa using h3,
      h4, h5, h6, h7⟩
  have hnn : SchemaValidator.validate_no_nulls df
      (some ["inventory_id", "product_id", "warehouse_id"]) = .ok () := by
    apply validate_no_nulls_ok
    rw [List.all_eq_true]
    intro c hc
    fin_cases hc
    · simp [colHasNull_false (fun r hr => (hrowp r hr).1)]
    · simp [colHasNull_false (fun r hr => (hrowp r hr).2.1)]
    · simp [colHasNull_false (fun r hr => (hrowp r hr).2.2.1)]
  have hfill : ∀ c ∈ (["quantity", "min_stock_level",
      "max_stock_level"] : List String),
      fill_column df c NullStrategy.FILL_ZERO = .ok df := by
    intro c hc
    unfold fill_column Frame.mapColE
    have hcont : df.cols.contains c = true := by
      apply hcols
      fin_cases hc <;> simp
    rw [if_pos hcont]
    rw [mapCol_eq_self hwf hcont]
    intro r hr
    apply fillZero_fix
    apply isNum_not_null
    fin_cases hc
    · exact numGE_isNum (hrowp r hr).2.2.2.1
    · exact numGE_isNum (hrowp r hr).2.2.2.2.1
    · exact numGE_isNum (hrowp r hr).2.2.2.2.2.1
  have hn : InventoryCleaner.handle_nulls df = .ok df := by
    unfold InventoryCleaner.handle_nulls
    simp only [bind_eq_of_ok hnn,
      bind_eq_of_ok (hfill "quantity" (by simp)),
      bind_eq_of_ok (hfill "min_stock_level" (by simp))]
    exact hfill "max_stock_level" (by simp)
  have hd : InventoryCleaner.handle_duplicates df = df := by
    unfold InventoryCleaner.handle_duplicates
    rw [dropDupLast_id df.rows hpair]
  have hconv : InventoryCleaner.convert_types df = .ok df := by
    have hmc : ∀ c ∈ (["quantity", "min_stock_level",
        "max_stock_level"] : List String),
        df.mapColE c Cell.toNumeric = .ok df := by
      intro c hc
      unfold Frame.mapColE
      have hcont : df.cols.contains c = true := by
        apply hcols
        fin_cases hc <;> simp
      rw [if_pos hcont]
      rw [mapCol_eq_self hwf hcont]
      intro r hr
      apply toNumeric_fix
      fin_cases hc
      · exact numGE_isNum (hrowp r hr).2.2.2.1
      · exact numGE_isNum (hrowp r hr).2.2.2.2.1
      · exact numGE_isNum (hrowp r hr).2.2.2.2.2.1
    have hmd : df.mapColE "last_restock_date" Cell.toDatetime = .ok df := by
      unfold Frame.mapColE
      have hcont : df.cols.contains "last_restock_date" = true := by
        apply hcols
        simp
      rw [if_pos hcont]
      rw [mapCol_eq_self hwf hcont]
      intro r hr
      exact toDatetime_fix (hrowp r hr).2.2.2.2.2.2
    unfold InventoryCleaner.convert_types
    simp only [bind_eq_of_ok (hmc "quantity" (by simp)),
      bind_eq_of_ok (hmc "min_stock_level" (by simp)),
      bind_eq_of_ok (hmc "max_stock_level" (by simp))]
    exact hmd
  have hval : InventoryCleaner.validate_cleaned_data df = .ok df := by
    have hreq : SchemaValidator.validate_required_columns df
        InventoryCleaner.REQUIRED_COLUMNS = .ok () := by
      apply validate_required_columns_ok
      rw [List.all_eq_true]
      intro c hc
      apply hcols
      fin_cases hc <;> simp
    have hr1 : SchemaValidator.validate_numeric_range df "quantity"
        (some 0) none = .ok () := by
      apply validate_numeric_range_ok
      intro cell hc x hx
      obtain ⟨r, hr, hcell⟩ := List.mem_map.mp hc
      subst hcell
      exact ⟨fun l hl => by
        cases hl
        exact numGE_bound (hrowp r hr).2.2.2.1 x hx,
        fun u hu => by cases hu⟩
    have hr2 : SchemaValidator.validate_numeric_range df "min_stock_level"
        (some 0) none = .ok () := by
      apply validate_numeric_range_ok
      intro cell hc x hx
      obtain ⟨r, hr, hcell⟩ := List.mem_map.mp hc
      subst hcell
      exact ⟨fun l hl => by
        cases hl
        exact numGE_bound (hrowp r hr).2.2.2.2.1 x hx,
        fun u hu => by cases hu⟩
    have hr3 : SchemaValidator.validate_numeric_range df "max_stock_level"
        (some 0) none = .ok () := by
      apply validate_numeric_range_ok
      intro cell hc x hx
      obtain ⟨r, hr, hcell⟩ := List.mem_map.mp hc
      subst hcell
      exact ⟨fun l hl => by
        cases hl
        exact numGE_bound (hrowp r hr).2.2.2.2.2.1 x hx,
        fun u hu => by cases hu⟩
    have hu : SchemaValidator.validate_unique_values df
        ["inventory_id"] = .ok () := validate_unique_values_ok hpair
    unfold InventoryCleaner.validate_cleaned_data
    simp only [bind_eq_of_ok hreq, bind_eq_of_ok hr1, bind_eq_of_ok hr2,
      bind_eq_of_ok hr3, bind_eq_of_ok hu]
    rfl
  unfold InventoryCleaner.clean
  simp only [bind_eq_of_ok hn, hd, bind_eq_of_ok hconv]
  exact hval

/-- C6 core, reviews: a table already satisfying the review schema is a
fixed point of ReviewsCleaner.clean. -/
theorem reviews_clean_fixpoint {df : Frame}
    (h : reviewsSchemaOK df = true) :
    ReviewsCleaner.clean df = .ok df := by
  unfold reviewsSchemaOK at h
  simp only [Bool.and_eq_true, List.all_eq_true] at h
  obtain ⟨⟨⟨hwf, hcols⟩, hrows⟩, huniq⟩ := h
  have hpair := (pairwiseNoMatch_iff Cell.eqv "review_id" df.rows).mp huniq
  have hrowp : ∀ r ∈ df.rows,
      (r.getCell "review_id").isNull = false ∧
      (r.getCell "product_id").isNull = false ∧
      (r.getCell "customer_id").isNull = false ∧
      (r.getCell "rating").numBetween 1 5 = true ∧
      (r.getCell "helpful_votes").numGE 0 = true ∧
      (r.getCell "created_at").isDate = true := by
    intro r hr
    have hh := hrows r hr
    simp only [Bool.and_eq_true] at hh
    obtain ⟨⟨⟨⟨⟨h1, h2⟩, h3⟩, h4⟩, h5⟩, h6⟩ := hh
    exact ⟨by simpa using h1, by simpa using h2, by simpa using h3,
      h4, h5, h6⟩
  have hnn : SchemaValidator.validate_no_nulls df
      (some ["review_id", "product_id", "customer_id", "rating",
        "created_at"]) = .ok () := by
    apply validate_no_nulls_ok
    rw [List.all_eq_true]
    intro c hc
    fin_cases hc
    · simp [colHasNull_false (fun r hr => (hrowp r hr).1)]
    · simp [colHasNull_false (fun r hr => (hrowp r hr).2.1)]
    · simp [colHasNull_false (fun r hr => (hrowp r hr).2.2.1)]
    · simp [colHasNull_false (fun r hr =>
        isNum_not_null (numBetween_isNum (hrowp r hr).2.2.2.1))]
    · simp [colHasNull_false (fun r hr =>
        isDate_not_null (hrowp r hr).2.2.2.2.2)]
  have hfv : fill_column df "helpful_votes" NullStrategy.FILL_ZERO =
      .ok df := by
    unfold fill_column Frame.mapColE
    have hcont : df.cols.contains "helpful_votes" = true := by
      apply hcols
      simp
    rw [if_pos hcont]
    rw [mapCol_eq_self hwf hcont]
    intro r hr
    exact fillZero_fix (isNum_not_null (numGE_isNum (hrowp r hr).2.2.2.2.1))
  have hn : ReviewsCleaner.handle_nulls df = .ok df := by
    unfold ReviewsCleaner.handle_nulls
    simp only [bind_eq_of_ok hnn]
    exact hfv
  have hd : ReviewsCleaner.handle_duplicates df = df := by
    unfold ReviewsCleaner.handle_duplicates
    rw [dropDupLast_id df.rows hpair]
  have hconv : ReviewsCleaner.convert_types df = df := by
    unfold ReviewsCleaner.convert_types
    have hcr : df.cols.contains "rating" = true := by
      apply hcols
      simp
    have hch : df.cols.contains "helpful_votes" = true := by
      apply hcols
      simp
    have hcc : df.cols.contains "created_at" = true := by
      apply hcols
      simp
    simp only [hcr, hch, hcc, if_true]
    rw [mapCol_eq_self hwf hcr (fun r hr =>
      toNumeric_fix (numBetween_isNum (hrowp r hr).2.2.2.1))]
    rw [mapCol_eq_self hwf hch (fun r hr =>
      toNumeric_fix (numGE_isNum (hrowp r hr).2.2.2.2.1))]
    simp only [hch, hcc, eq_self_iff_true, if_true]
    rw [mapCol_eq_self hwf hcc (fun r hr =>
      toDatetime_fix (isDate_dateOrNull (hrowp r hr).2.2.2.2.2))]
  have hval : ReviewsCleaner.validate_cleaned_data df = .ok df := by
    have hreq : SchemaValidator.validate_required_columns df
        ReviewsCleaner.REQUIRED_COLUMNS = .ok () := by
      apply validate_required_columns_ok
      rw [List.all_eq_true]
      intro c hc
      apply hcols
      fin_cases hc <;> simp
    have hr1 : SchemaValidator.validate_numeric_range df "rating"
        (some 1) (some 5) = .ok () := by
      apply validate_numeric_range_ok
      intro cell hc x hx
      obtain ⟨r, hr, hcell⟩ := List.mem_map.mp hc
      subst hcell
      have hb := numBetween_bounds (hrowp r hr).2.2.2.1 x hx
      exact ⟨fun l hl => by
        cases hl
        exact hb.1,
        fun u hu => by
          cases hu
          exact hb.2⟩
    have hr2 : SchemaValidator.validate_numeric_range df "helpful_votes"
        (some 0) none = .ok () := by
      apply validate_numeric_range_ok
      intro cell hc x hx
      obtain ⟨r, hr, hcell⟩ := List.mem_map.mp hc
      subst hcell
      exact ⟨fun l hl => by
        cases hl
        exact numGE_bound (hrowp r hr).2.2.2.2.1 x hx,
        fun u hu => by cases hu⟩
    have hu : SchemaValidator.validate_unique_values df
        ["review_id"] = .ok () := validate_unique_values_ok hpair
    unfold ReviewsCleaner.validate_cleaned_data
    simp only [bind_eq_of_ok hreq, bind_eq_of_ok hr1, bind_eq_of_ok hr2,
      bind_eq_of_ok hu]
    rfl
  unfold ReviewsCleaner.clean
  simp only [bind_eq_of_ok hn, hd, hconv]
  exact hval

/-- C6: clean is idempotent on schema-conformant tables — such a table is
a fixed point of clean, so cleaning twice equals cleaning once, for both
InventoryCleaner and ReviewsCleaner. -/
theorem clean_idempotent :
    ∀ df df2 : Frame,
      (inventorySchemaOK df = true →
        InventoryCleaner.clean df = .ok df ∧
        ((InventoryCleaner.clean df) >>= InventoryCleaner.clean) =
          InventoryCleaner.clean df) ∧
      (reviewsSchemaOK df2 = true →
        ReviewsCleaner.clean df2 = .ok df2 ∧
        ((ReviewsCleaner.clean df2) >>= ReviewsCleaner.clean) =
          ReviewsCleaner.clean df2) := by
  intro df df2
  constructor
  · intro h
    have hfix := inventory_clean_fixpoint h
    refine ⟨hfix, ?_⟩
    rw [bind_eq_of_ok hfix, hfix]
  · intro h
    have hfix := reviews_clean_fixpoint h
    refine ⟨hfix, ?_⟩
    rw [bind_eq_of_ok hfix, hfix]

/-- An inventory table already in cleaned, schema-conformant form. -/
def inventoryOKX : Frame :=
  Frame.mk ["inventory_id", "product_id", "warehouse_id", "quantity",
    "min_stock_level", "max_stock_level", "last_restock_date"]
    [[("inventory_id", Cell.int 1), ("product_id", Cell.int 7),
      ("warehouse_id", Cell.int 3), ("quantity", Cell.int 50),
      ("min_stock_level", Cell.int 10), ("max_stock_level", Cell.int 100),
      ("last_restock_date", Cell.date ⟨2024, 1, 5⟩)],
     [("inventory_id", Cell.int 2), ("product_id", Cell.int 8),
      ("warehouse_id", Cell.int 3), ("quantity", Cell.int 0),
      ("min_stock_level", Cell.int 1), ("max_stock_level", Cell.int 9),
      ("last_restock_date", Cell.null)]]

/-- A reviews table already in cleaned, schema-conformant form. -/
def reviewsOKX : Frame :=
  Frame.mk ["review_id", "product_id", "customer_id", "rating",
    "created_at", "helpful_votes", "comment"]
    [[("review_id", Cell.int 1), ("product_id", Cell.int 10),
      ("customer_id", Cell.int 4), ("rating", Cell.int 5),
      ("created_at", Cell.date ⟨2024, 3, 5⟩),
      ("helpful_votes", Cell.int 2), ("comment", Cell.str "great")],
     [("review_id", Cell.int 2), ("product_id", Cell.int 11),
      ("customer_id", Cell.int 4), ("rating", Cell.int 2),
      ("created_at", Cell.date ⟨2024, 3, 6⟩),
      ("helpful_votes", Cell.int 0), ("comment", Cell.null)]]

/-- Witness for C6: the concrete schema-conformant tables are fixed points
of their cleaners, and cleaning them twice equals cleaning them once. -/
theorem clean_idempotent_witness :
    inventorySchemaOK inventoryOKX = true ∧
    InventoryCleaner.clean inventoryOKX = .ok inventoryOKX ∧
    ((InventoryCleaner.clean inventoryOKX) >>= InventoryCleaner.clean) =
      InventoryCleaner.clean inventoryOKX ∧
    reviewsSchemaOK reviewsOKX = true ∧
    ReviewsCleaner.clean reviewsOKX = .ok reviewsOKX ∧
    ((ReviewsCleaner.clean reviewsOKX) >>= ReviewsCleaner.clean) =
      ReviewsCleaner.clean reviewsOKX :=
  ⟨by decide,
   ((clean_idempotent inventoryOKX reviewsOKX).1 (by decide)).1,
   ((clean_idempotent inventoryOKX reviewsOKX).1 (by decide)).2,
   by decide,
   ((clean_idempotent inventoryOKX reviewsOKX).2 (by decide)).1,
   ((clean_idempotent inventoryOKX reviewsOKX).2 (by decide)).2⟩
